import Mathlib

/-!
# Performance addon operator: machine-config compiler and status aggregation

A shallow embedding of

* `pkg/controller/performanceprofile/components/machineconfig/machineconfig.go`
* `pkg/controller/performanceprofile/components/profile/profile.go`
* `controllers/status.go`
* `cmd/performance-profile-creator/cmd/root.go`

Go pointers and nil-able maps are `Option`s, slices are `List`s, functions
returning `(T, error)` return `Except Error T`, and a runtime panic (nil
dereference) is the error `Error.nilPointerDereference`.  Library calls whose
code is not part of the repository sources (file reads, template execution,
base64, systemd serialisation, the CPU-list codec, the API client) are fields
of `Env` and `Reconciler`.
-/

set_option autoImplicit false

namespace PAO

/-! ## Errors -/

/-- Error values returned (or panics raised) by the embedded functions. -/
inductive Error where
  /-- Failure of `ioutil.ReadFile` on the path. -/
  | readFile (path : String)
  /-- Error of `GetHugepagesSizeKilobytes`: the size cannot be converted to kilobytes. -/
  | cannotConvertSize (size : String)
  /-- The CPU-list codec rejected its input. -/
  | invalidCPUList (cpulist : String)
  /-- A template failed to parse or to execute. -/
  | template (text : String)
  /-- A label selector could not be converted. -/
  | invalidSelector (detail : String)
  /-- An API request (list, get, update) failed. -/
  | api (detail : String)
  /-- The API object was not found. -/
  | notFound (name : String)
  /-- Any other library failure. -/
  | other (detail : String)
  /-- Runtime panic: a field of a nil pointer was read. -/
  | nilPointerDereference
  deriving DecidableEq, Repr

deriving instance DecidableEq for Except

/-! ## Data model (api/v2, ignition, go-systemd, conditions) -/

/-- Go `map[string]string`; a nil map is `none` at the use site. -/
abbrev StringMap := List (String × String)

/-- Type `metav1.Time`, as a number of ticks. -/
abbrev Time := Nat

/-- Struct `performancev2.CPU`. -/
structure CPU where
  Reserved : Option String := none
  Isolated : Option String := none
  BalanceIsolated : Option Bool := none
  deriving DecidableEq, Repr

/-- Struct `performancev2.HugePage`. -/
structure HugePage where
  Size : String
  Count : Int
  Node : Option Int := none
  deriving DecidableEq, Repr

/-- Struct `performancev2.HugePages`. -/
structure HugePages where
  DefaultHugePagesSize : Option String := none
  Pages : List HugePage := []
  deriving DecidableEq, Repr

/-- Struct `performancev2.RealTimeKernel`. -/
structure RealTimeKernel where
  Enabled : Option Bool := none
  deriving DecidableEq, Repr

/-- Struct `performancev2.NUMA`. -/
structure NUMA where
  TopologyPolicy : Option String := none
  deriving DecidableEq, Repr

/-- Struct `performancev2.PerformanceProfileSpec`. -/
structure PerformanceProfileSpec where
  CPU : Option CPU := none
  HugePages : Option HugePages := none
  MachineConfigLabel : Option StringMap := none
  MachineConfigPoolSelector : Option StringMap := none
  NodeSelector : Option StringMap := none
  RealTimeKernel : Option RealTimeKernel := none
  AdditionalKernelArgs : List String := []
  NUMA : Option NUMA := none
  deriving DecidableEq, Repr

/-- Struct `conditionsv1.Condition`. -/
structure Condition where
  Type_ : String
  Status : String
  Reason : String := ""
  Message : String := ""
  LastHeartbeatTime : Time := 0
  LastTransitionTime : Time := 0
  deriving DecidableEq, Repr

/-- Struct `performancev2.PerformanceProfileStatus`. -/
structure PerformanceProfileStatus where
  Conditions : List Condition := []
  Tuned : Option String := none
  RuntimeClass : Option String := none
  deriving DecidableEq, Repr

/-- Struct `PerformanceProfileInfo` with the embedded `PerformanceProfile`. -/
structure PerformanceProfileInfo where
  Name : String
  Annotations : Option StringMap := none
  Spec : PerformanceProfileSpec := {}
  Status : PerformanceProfileStatus := {}
  WorkloadPartitionEnabled : Bool := false
  deriving DecidableEq, Repr

/-- Struct `unit.UnitOption` of go-systemd. -/
structure UnitOption where
  Section : String
  Name : String
  Value : String
  deriving DecidableEq, Repr

/-- Constructor `unit.NewUnitOption`. -/
def NewUnitOption (sect name value : String) : UnitOption :=
  { Section := sect, Name := name, Value := value }

/-- Struct `igntypes.File`: node path, resource source and mode. -/
structure File where
  Path : String
  Source : Option String := none
  Mode : Option Nat := none
  deriving DecidableEq, Repr

/-- Struct `igntypes.Unit`. -/
structure Unit where
  Contents : Option String := none
  Enabled : Option Bool := none
  Name : String
  deriving DecidableEq, Repr

/-- Struct `igntypes.Ignition`. -/
structure Ignition where
  Version : String := ""
  deriving DecidableEq, Repr

/-- Struct `igntypes.Storage`. -/
structure Storage where
  Files : List File := []
  deriving DecidableEq, Repr

/-- Struct `igntypes.Systemd`. -/
structure Systemd where
  Units : List Unit := []
  deriving DecidableEq, Repr

/-- Struct `igntypes.Config`. -/
structure Config where
  Ignition : Ignition := {}
  Storage : Storage := {}
  Systemd : Systemd := {}
  deriving DecidableEq, Repr

/-- Struct `machineconfigv1.MachineConfig`, the fields that `New` sets. -/
structure MachineConfig where
  APIVersion : String
  Kind : String
  Name : String
  Labels : StringMap
  Config : String
  KernelType : String
  deriving DecidableEq, Repr

/-! ## Constants of machineconfig.go -/

def defaultIgnitionVersion : String := "3.2.0"
def defaultIgnitionContentSource : String := "data:text/plain;charset=utf-8;base64"

def MCKernelRT : String := "realtime"
def MCKernelDefault : String := "default"
def HighPerformanceRuntime : String := "high-performance"

def hugepagesAllocation : String := "hugepages-allocation"
def bashScriptsDir : String := "/usr/local/bin"
def crioConfd : String := "/etc/crio/crio.conf.d"
def crioRuntimesConfig : String := "99-runtimes.conf"
def ociHooks : String := "low-latency-hooks"
def OCIHooksConfigDir : String := "/etc/containers/oci/hooks.d"
def OCIHooksConfig : String := "99-low-latency-hooks"
def ociTemplateRPSMask : String := "RPSMask"
def udevRulesDir : String := "/etc/udev/rules.d"
def udevRpsRule : String := "99-netdev-rps"
def setRPSMask : String := "set-rps-mask"

def systemdSectionUnit : String := "Unit"
def systemdSectionService : String := "Service"
def systemdSectionInstall : String := "Install"
def systemdDescription : String := "Description"
def systemdBefore : String := "Before"
def systemdEnvironment : String := "Environment"
def systemdType : String := "Type"
def systemdRemainAfterExit : String := "RemainAfterExit"
def systemdExecStart : String := "ExecStart"
def systemdWantedBy : String := "WantedBy"

def systemdServiceKubelet : String := "kubelet.service"
def systemdServiceTypeOneshot : String := "oneshot"
def systemdTargetMultiUser : String := "multi-user.target"
def systemdTrue : String := "true"

def environmentHugepagesSize : String := "HUGEPAGES_SIZE"
def environmentHugepagesCount : String := "HUGEPAGES_COUNT"
def environmentNUMANode : String := "NUMA_NODE"

def templateReservedCpus : String := "ReservedCpus"

/-! ## machineconfig.go: pure helpers -/

/-- Function `GetHugepagesSizeKilobytes`: the hugepages size in kilobytes. -/
def GetHugepagesSizeKilobytes (hugepagesSize : String) : Except Error String :=
  if hugepagesSize = "1G" then
    .ok "1048576"
  else if hugepagesSize = "2M" then
    .ok "2048"
  else
    .error (.cannotConvertSize hugepagesSize)

/-! ## Library calls made by machineconfig.go -/

/-- Library and sibling-package functions called by the machine-config
compiler whose code is not part of the embedded sources. -/
structure Env where
  /-- Call `ioutil.ReadFile(path)`. -/
  ReadFile : String → Except Error String
  /-- Call `filepath.Join(elem...)`. -/
  Join : List String → String
  /-- Call `template.Must(template.New(name).Parse(text)).Execute(out, args)`. -/
  Execute : String → StringMap → Except Error String
  /-- Call `base64.StdEncoding.EncodeToString(content)`. -/
  EncodeToString : String → String
  /-- Call `ioutil.ReadAll(unit.Serialize(options))`. -/
  Serialize : List UnitOption → Except Error String
  /-- Call `json.Marshal(ignitionConfig)`. -/
  Marshal : Config → Except Error String
  /-- Call `components.CPUListToMaskList(cpulist)`, the CPU-list to mask codec. -/
  CPUListToMaskList : String → Except Error String
  /-- Call `components.GetComponentName(profileName, prefix)`. -/
  GetComponentName : String → String → String
  /-- Constant `components.ComponentNamePrefix`. -/
  ComponentNamePrefix : String
  /-- Constant `components.ProfileNamePerformance`. -/
  ProfileNamePerformance : String
  /-- Constant `components.NamespaceNodeTuningOperator`. -/
  NamespaceNodeTuningOperator : String
  /-- Constant `components.MachineConfigRoleLabelKey`. -/
  MachineConfigRoleLabelKey : String
  /-- Call `components.GetFirstKeyAndValue(m)`. -/
  GetFirstKeyAndValue : Option StringMap → String × String
  /-- Call `components.SplitLabelKey(s)`: domain, role, error. -/
  SplitLabelKey : String → String × String × Option Error
  /-- Value `machineconfigv1.GroupVersion.String()`. -/
  MachineConfigGroupVersion : String

/-! ## profile.go -/

/-- Function `getDefaultLabel`. -/
def getDefaultLabel (env : Env) (profile : PerformanceProfileInfo) : StringMap :=
  let nodeSelectorKey := (env.GetFirstKeyAndValue profile.Spec.NodeSelector).1
  -- no error handling needed, it's validated already
  let nodeRole := (env.SplitLabelKey nodeSelectorKey).2.1
  [(env.MachineConfigRoleLabelKey, nodeRole)]

/-- Function `GetMachineConfigPoolSelector`. -/
def GetMachineConfigPoolSelector (env : Env) (profile : PerformanceProfileInfo) : StringMap :=
  match profile.Spec.MachineConfigPoolSelector with
  | some sel => sel
  | none => getDefaultLabel env profile

/-- Function `GetMachineConfigLabel`. -/
def GetMachineConfigLabel (env : Env) (profile : PerformanceProfileInfo) : StringMap :=
  match profile.Spec.MachineConfigLabel with
  | some lbl => lbl
  | none => getDefaultLabel env profile

/-! ## machineconfig.go -/

/-- Function `GetMachineConfigName`. -/
def GetMachineConfigName (env : Env) (profile : PerformanceProfileInfo) : String :=
  let name := env.GetComponentName profile.Name env.ComponentNamePrefix
  "50-" ++ name

/-- Function `getBashScriptPath`. -/
def getBashScriptPath (scriptName : String) : String :=
  bashScriptsDir ++ "/" ++ scriptName ++ ".sh"

/-- Function `getSystemdEnvironment`. -/
def getSystemdEnvironment (key : String) (value : String) : String :=
  key ++ "=" ++ value

/-- Function `getSystemdService`. -/
def getSystemdService (serviceName : String) : String :=
  serviceName ++ ".service"

/-- Function `getSystemdContent`. -/
def getSystemdContent (env : Env) (options : List UnitOption) : Except Error String :=
  env.Serialize options

/-- Function `GetOCIHooksConfigContent`: the rendered OCI hook file. -/
def GetOCIHooksConfigContent (env : Env) (configFile : String)
    (profile : PerformanceProfileInfo) : Except Error String := do
  let content ← env.ReadFile configFile
  -- RPS disabled
  let rpsMask ←
    (match profile.Spec.CPU with
     | none => pure "0"
     | some cpu =>
       match cpu.Reserved with
       | none => pure "0"
       | some reserved => env.CPUListToMaskList reserved)
  let templateArgs : StringMap := [(ociTemplateRPSMask, rpsMask)]
  env.Execute content templateArgs

/-- Function `getHugepagesAllocationUnitOptions`. -/
def getHugepagesAllocationUnitOptions (hugepagesSize : String) (hugepagesCount : Int)
    (numaNode : Int) : List UnitOption :=
  [ -- [Unit]
    NewUnitOption systemdSectionUnit systemdDescription
      ("Hugepages-" ++ hugepagesSize ++ "kB allocation on the node " ++ toString numaNode),
    NewUnitOption systemdSectionUnit systemdBefore systemdServiceKubelet,
    -- [Service]
    NewUnitOption systemdSectionService systemdEnvironment
      (getSystemdEnvironment environmentHugepagesCount (toString hugepagesCount)),
    NewUnitOption systemdSectionService systemdEnvironment
      (getSystemdEnvironment environmentHugepagesSize hugepagesSize),
    NewUnitOption systemdSectionService systemdEnvironment
      (getSystemdEnvironment environmentNUMANode (toString numaNode)),
    NewUnitOption systemdSectionService systemdType systemdServiceTypeOneshot,
    NewUnitOption systemdSectionService systemdRemainAfterExit systemdTrue,
    NewUnitOption systemdSectionService systemdExecStart (getBashScriptPath hugepagesAllocation),
    -- [Install]
    NewUnitOption systemdSectionInstall systemdWantedBy systemdTargetMultiUser ]

/-- Function `getRPSUnitOptions`. -/
def getRPSUnitOptions (rpsMask : String) : List UnitOption :=
  let cmd := getBashScriptPath setRPSMask ++ " %i " ++ rpsMask
  [ NewUnitOption systemdSectionUnit systemdDescription "Sets network devices RPS mask",
    NewUnitOption systemdSectionService systemdType systemdServiceTypeOneshot,
    NewUnitOption systemdSectionService systemdExecStart cmd ]

/-- Function `addContent`: appends one file to the ignition config. -/
def addContent (env : Env) (ignitionConfig : Config) (content : String) (dst : String)
    (mode : Nat) : Except Error Config :=
  let contentBase64 := env.EncodeToString content
  .ok { ignitionConfig with
        Storage := { Files := ignitionConfig.Storage.Files ++
          [{ Path := dst,
             Source := some (defaultIgnitionContentSource ++ "," ++ contentBase64),
             Mode := some mode }] } }

/-- Function `addCrioConfigSnippet`: reads `profile.Spec.CPU.Reserved` without a
nil check on `profile.Spec.CPU`. -/
def addCrioConfigSnippet (env : Env) (profile : PerformanceProfileInfo) (src : String) :
    Except Error String := do
  let templateArgs : StringMap ←
    (match profile.Spec.CPU with
     | none => throw Error.nilPointerDereference
     | some cpu =>
       match cpu.Reserved with
       | some reserved => pure [(templateReservedCpus, reserved)]
       | none => pure [])
  let content ← env.ReadFile src
  env.Execute content templateArgs

/-- Function `addFile`. -/
def addFile (env : Env) (ignitionConfig : Config) (src : String) (dst : String) (mode : Nat) :
    Except Error Config := do
  let content ← env.ReadFile src
  addContent env ignitionConfig content dst mode

/-- Body of the loop over `profile.Spec.HugePages.Pages` in `getIgnitionConfig`. -/
def addHugepagesUnit (env : Env) (ignitionConfig : Config) (page : HugePage) :
    Except Error Config :=
  match page.Node with
  | none =>
    -- we already allocated non NUMA specific hugepages via kernel arguments
    .ok ignitionConfig
  | some node => do
    let hugepagesSize ← GetHugepagesSizeKilobytes page.Size
    let hugepagesService ← getSystemdContent env
      (getHugepagesAllocationUnitOptions hugepagesSize page.Count node)
    pure { ignitionConfig with
           Systemd := { Units := ignitionConfig.Systemd.Units ++
             [{ Contents := some hugepagesService,
                Enabled := some true,
                Name := getSystemdService
                  (hugepagesAllocation ++ "-" ++ hugepagesSize ++ "kB-NUMA" ++ toString node) }] } }

/-- Function `getIgnitionConfig`. -/
def getIgnitionConfig (env : Env) (assetsDir : String) (profile : PerformanceProfileInfo) :
    Except Error Config := do
  let ignitionConfig : Config :=
    { Ignition := { Version := defaultIgnitionVersion }, Storage := { Files := [] } }
  -- add script files under the node /usr/local/bin directory
  let mode := 0o700
  let ignitionConfig ← [hugepagesAllocation, ociHooks, setRPSMask].foldlM
    (fun cfg script =>
      addFile env cfg (env.Join [assetsDir, "scripts", script ++ ".sh"])
        (getBashScriptPath script) mode)
    ignitionConfig
  -- add crio config snippet under the node /etc/crio/crio.conf.d/ directory
  let crioConfdRuntimesMode := 0o644
  let crioConfigSnippetContent ←
    addCrioConfigSnippet env profile (env.Join [assetsDir, "configs", crioRuntimesConfig])
  let ignitionConfig ← addContent env ignitionConfig crioConfigSnippetContent
    (env.Join [crioConfd, crioRuntimesConfig]) crioConfdRuntimesMode
  -- add crio hooks config under the node cri-o hook directory
  let crioHooksConfigsMode := 0o644
  let config := OCIHooksConfig ++ ".json"
  let ociHooksConfigContent ←
    GetOCIHooksConfigContent env (env.Join [assetsDir, "configs", config]) profile
  let ignitionConfig ← addContent env ignitionConfig ociHooksConfigContent
    (env.Join [OCIHooksConfigDir, config]) crioHooksConfigsMode
  -- add rps udev rule
  let rpsRuleMode := 0o644
  let rule := udevRpsRule ++ ".rules"
  let ignitionConfig ← addFile env ignitionConfig (env.Join [assetsDir, "configs", rule])
    (env.Join [udevRulesDir, rule]) rpsRuleMode
  let ignitionConfig ←
    (match profile.Spec.HugePages with
     | some hugePages => hugePages.Pages.foldlM (addHugepagesUnit env) ignitionConfig
     | none => pure ignitionConfig)
  match profile.Spec.CPU with
  | none => pure ignitionConfig
  | some cpu =>
    match cpu.Reserved with
    | none => pure ignitionConfig
    | some reserved => do
      let rpsMask ← env.CPUListToMaskList reserved
      let rpsService ← getSystemdContent env (getRPSUnitOptions rpsMask)
      pure { ignitionConfig with
             Systemd := { Units := ignitionConfig.Systemd.Units ++
               [{ Contents := some rpsService,
                  Name := getSystemdService "update-rps@" }] } }

/-- Function `New`: the machine configuration object of a profile. -/
def New (env : Env) (assetsDir : String) (profile : PerformanceProfileInfo) :
    Except Error MachineConfig := do
  let name := GetMachineConfigName env profile
  let ignitionConfig ← getIgnitionConfig env assetsDir profile
  let rawIgnition ← env.Marshal ignitionConfig
  let enableRTKernel :=
    match profile.Spec.RealTimeKernel with
    | none => false
    | some rt =>
      match rt.Enabled with
      | none => false
      | some enabled => enabled
  pure { APIVersion := env.MachineConfigGroupVersion,
         Kind := "MachineConfig",
         Name := name,
         Labels := GetMachineConfigLabel env profile,
         Config := rawIgnition,
         KernelType := if enableRTKernel then MCKernelRT else MCKernelDefault }

/-! ## Data model of status.go (machine config pools, label selectors) -/

/-- Struct `metav1.LabelSelectorRequirement`. -/
structure LabelSelectorRequirement where
  Key : String
  Operator : String
  Values : List String := []
  deriving DecidableEq, Repr

/-- Struct `metav1.LabelSelector`. -/
structure LabelSelector where
  MatchLabels : StringMap := []
  MatchExpressions : List LabelSelectorRequirement := []
  deriving DecidableEq, Repr

/-- Interface `labels.Selector`, reduced to its `Matches` method. -/
structure Selector where
  Matches : StringMap → Bool

/-- Struct `mcov1.MachineConfigPoolCondition`. -/
structure MachineConfigPoolCondition where
  Type_ : String
  Status : String
  Reason : String := ""
  Message : String := ""
  LastTransitionTime : Time := 0
  deriving DecidableEq, Repr

/-- Struct `mcov1.MachineConfigPoolSpec`. -/
structure MachineConfigPoolSpec where
  MachineConfigSelector : Option LabelSelector := none
  deriving DecidableEq, Repr

/-- Struct `mcov1.MachineConfigPoolStatus`. -/
structure MachineConfigPoolStatus where
  Conditions : List MachineConfigPoolCondition := []
  deriving DecidableEq, Repr

/-- Struct `mcov1.MachineConfigPool`. -/
structure MachineConfigPool where
  Name : String
  Spec : MachineConfigPoolSpec := {}
  Status : MachineConfigPoolStatus := {}
  deriving DecidableEq, Repr

/-- Struct `mcov1.KubeletConfigCondition`. -/
structure KubeletConfigCondition where
  Type_ : String
  Status : String
  LastTransitionTime : Time := 0
  Reason : String := ""
  Message : String := ""
  deriving DecidableEq, Repr

/-- Struct `mcov1.KubeletConfigStatus`. -/
structure KubeletConfigStatus where
  Conditions : List KubeletConfigCondition := []
  deriving DecidableEq, Repr

/-- Struct `mcov1.KubeletConfig`. -/
structure KubeletConfig where
  Name : String
  Status : KubeletConfigStatus := {}
  deriving DecidableEq, Repr

/-- Struct `tunedv1.ProfileStatusCondition`. -/
structure ProfileStatusCondition where
  Type_ : String
  Status : String
  LastTransitionTime : Time := 0
  Reason : String := ""
  Message : String := ""
  deriving DecidableEq, Repr

/-- Struct `tunedv1.ProfileStatus`. -/
structure ProfileStatus where
  Conditions : List ProfileStatusCondition := []
  deriving DecidableEq, Repr

/-- Struct `tunedv1.Profile`, the Tuned profile of one node. -/
structure TunedProfile where
  Name : String
  Status : ProfileStatus := {}
  deriving DecidableEq, Repr

/-- Struct `corev1.Node`. -/
structure Node where
  Name : String
  Labels : StringMap := []
  deriving DecidableEq, Repr

/-- The reconciler `PerformanceProfileReconciler`: the API snapshot it reads,
the status writer and the clock. -/
structure Reconciler where
  /-- Call `r.List(ctx, &mcov1.MachineConfigPoolList)`: the items or the error. -/
  ListMachineConfigPools : Except Error (List MachineConfigPool)
  /-- Call `metav1.LabelSelectorAsSelector(selector)`. -/
  LabelSelectorAsSelector : Option LabelSelector → Except Error Selector
  /-- Call `r.Status().Update(ctx, profile)`: the error, if any. -/
  StatusUpdate : PerformanceProfileInfo → Option Error
  /-- Call `time.Now()`. -/
  Now : Time
  /-- Method `r.getKubeletConfig(name)`: the object or the lookup error. -/
  getKubeletConfig : String → Except Error KubeletConfig
  /-- Call `r.List(ctx, &tunedv1.ProfileList)`: the items or the error. -/
  ListTunedProfiles : Except Error (List TunedProfile)
  /-- Call `r.List(ctx, &corev1.NodeList, selector)` with the selector
  `labels.SelectorFromSet(nodeSelector)`: the matching nodes or the error. -/
  ListNodes : Option StringMap → Except Error (List Node)

/-! ## Constants of status.go and of the condition libraries -/

def conditionReasonValidationFailed : String := "ValidationFailed"
def conditionReasonComponentsCreationFailed : String := "ComponentCreationFailed"
def conditionReasonMCPDegraded : String := "MCPDegraded"
def conditionFailedGettingMCPStatus : String := "GettingMCPStatusFailed"
def conditionKubeletFailed : String := "KubeletConfig failure"
def conditionFailedGettingKubeletStatus : String := "GettingKubeletStatusFailed"
def conditionReasonTunedDegraded : String := "TunedProfileDegraded"
def conditionFailedGettingTunedProfileStatus : String := "GettingTunedStatusFailed"

def ConditionAvailable : String := "Available"
def ConditionUpgradeable : String := "Upgradeable"
def ConditionProgressing : String := "Progressing"
def ConditionDegraded : String := "Degraded"

def ConditionTrue : String := "True"
def ConditionFalse : String := "False"
def ConditionUnknown : String := "Unknown"

def MachineConfigPoolNodeDegraded : String := "NodeDegraded"
def MachineConfigPoolRenderDegraded : String := "RenderDegraded"

def KubeletConfigSuccess : String := "Success"
def KubeletConfigFailure : String := "Failure"

def TunedProfileApplied : String := "Applied"
def TunedDegraded : String := "Degraded"

/-! ## status.go -/

/-- Library function `conditionsv1.FindStatusCondition`: the first condition of
the given type. -/
def FindStatusCondition (conditions : List Condition) (conditionType : String) :
    Option Condition :=
  match conditions with
  | [] => none
  | c :: rest => if c.Type_ = conditionType then some c else FindStatusCondition rest conditionType

/-- The loop of `updateStatus` over the new conditions: `true` when it leaves
through one of its two `modified = true; break` exits. -/
def conditionsModified (stored : List Condition) : List Condition → Bool
  | [] => false
  | newCondition :: rest =>
    match FindStatusCondition stored newCondition.Type_ with
    | none => true
    | some oldCondition =>
      -- ignore timestamps to avoid infinite reconcile loops
      if oldCondition.Status ≠ newCondition.Status ∨
          oldCondition.Reason ≠ newCondition.Reason ∨
          oldCondition.Message ≠ newCondition.Message then
        true
      else
        conditionsModified stored rest

/-- What `updateStatus` did: the object handed to `r.Status().Update`, if the
call was made, and the returned error. -/
structure UpdateOutcome where
  written : Option PerformanceProfileInfo
  err : Option Error
  deriving DecidableEq, Repr

/-- Method `updateStatus`; a nil `conditions` slice is `none`. -/
def updateStatus (env : Env) (r : Reconciler) (profile : PerformanceProfileInfo)
    (conditions : Option (List Condition)) : UpdateOutcome :=
  let profileCopy := profile
  let profileCopy :=
    match conditions with
    | some cs => { profileCopy with Status := { profileCopy.Status with Conditions := cs } }
    | none => profileCopy
  -- check if we need to update the status
  let modified := conditionsModified profile.Status.Conditions profileCopy.Status.Conditions
  let (profileCopy, modified) :=
    match profileCopy.Status.Tuned with
    | none =>
      let tunedStatus := env.NamespaceNodeTuningOperator ++ "/" ++
        env.GetComponentName profile.Name env.ProfileNamePerformance
      ({ profileCopy with Status := { profileCopy.Status with Tuned := some tunedStatus } }, true)
    | some _ => (profileCopy, modified)
  let (profileCopy, modified) :=
    match profileCopy.Status.RuntimeClass with
    | none =>
      let runtimeClassName := env.GetComponentName profile.Name env.ComponentNamePrefix
      ({ profileCopy with
         Status := { profileCopy.Status with RuntimeClass := some runtimeClassName } }, true)
    | some _ => (profileCopy, modified)
  if !modified then
    { written := none, err := none }
  else
    { written := some profileCopy, err := r.StatusUpdate profileCopy }

/-- Method `getAvailableConditions`. -/
def getAvailableConditions (r : Reconciler) : List Condition :=
  let now := r.Now
  [ { Type_ := ConditionAvailable, Status := ConditionTrue,
      LastTransitionTime := now, LastHeartbeatTime := now },
    { Type_ := ConditionUpgradeable, Status := ConditionTrue,
      LastTransitionTime := now, LastHeartbeatTime := now },
    { Type_ := ConditionProgressing, Status := ConditionFalse,
      LastTransitionTime := now, LastHeartbeatTime := now },
    { Type_ := ConditionDegraded, Status := ConditionFalse,
      LastTransitionTime := now, LastHeartbeatTime := now } ]

/-- Method `getDegradedConditions`. -/
def getDegradedConditions (r : Reconciler) (reason : String) (message : String) :
    List Condition :=
  let now := r.Now
  [ { Type_ := ConditionAvailable, Status := ConditionFalse,
      LastTransitionTime := now, LastHeartbeatTime := now },
    { Type_ := ConditionUpgradeable, Status := ConditionFalse,
      LastTransitionTime := now, LastHeartbeatTime := now },
    { Type_ := ConditionProgressing, Status := ConditionFalse,
      LastTransitionTime := now, LastHeartbeatTime := now },
    { Type_ := ConditionDegraded, Status := ConditionTrue,
      LastTransitionTime := now, LastHeartbeatTime := now,
      Reason := reason, Message := message } ]

/-- Method `getProgressingConditions`. -/
def getProgressingConditions (r : Reconciler) (reason : String) (message : String) :
    List Condition :=
  let now := r.Now
  [ { Type_ := ConditionAvailable, Status := ConditionFalse, LastTransitionTime := now },
    { Type_ := ConditionUpgradeable, Status := ConditionFalse, LastTransitionTime := now },
    { Type_ := ConditionProgressing, Status := ConditionTrue, LastTransitionTime := now,
      Reason := reason, Message := message },
    { Type_ := ConditionDegraded, Status := ConditionFalse, LastTransitionTime := now } ]

/-- Body of the loop of `removeMCPDuplicateEntries`; the state is the map
`items` and the slice `filtered`. -/
def removeMCPDuplicateEntriesStep
    (st : List (String × MachineConfigPool) × List MachineConfigPool)
    (mcp : MachineConfigPool) : List (String × MachineConfigPool) × List MachineConfigPool :=
  match st.1.lookup mcp.Name with
  | some _ => st
  | none => ((mcp.Name, mcp) :: st.1, st.2 ++ [mcp])

/-- Function `removeMCPDuplicateEntries`. -/
def removeMCPDuplicateEntries (mcps : List MachineConfigPool) : List MachineConfigPool :=
  (mcps.foldl removeMCPDuplicateEntriesStep ([], [])).2

/-- Body of the inner loop of `getMCPConditionsByProfile` over the conditions
of the pool `mcp`; `message` is the buffer. -/
def writeMCPCondition (mcp : MachineConfigPool) (message : String)
    (condition : MachineConfigPoolCondition) : String :=
  if (condition.Type_ = MachineConfigPoolNodeDegraded ∨
      condition.Type_ = MachineConfigPoolRenderDegraded) ∧
      condition.Status = ConditionTrue then
    let message :=
      if condition.Reason ≠ "" then
        message ++ ("Machine config pool " ++ mcp.Name ++ " Degraded Reason: " ++
          condition.Reason ++ ".\n")
      else message
    if condition.Message ≠ "" then
      message ++ ("Machine config pool " ++ mcp.Name ++ " Degraded Message: " ++
        condition.Message ++ ".\n")
    else message
  else message

/-- Body of the outer loop of `getMCPConditionsByProfile` over the filtered
pools. -/
def writeMCP (r : Reconciler) (machineConfigPoolSelector : StringMap) (message : String)
    (mcp : MachineConfigPool) : Except Error String := do
  let selector ← r.LabelSelectorAsSelector mcp.Spec.MachineConfigSelector
  if !selector.Matches machineConfigPoolSelector then
    pure message
  else
    pure (mcp.Status.Conditions.foldl (writeMCPCondition mcp) message)

/-- Method `getMCPConditionsByProfile`; the result `none` is the nil slice. -/
def getMCPConditionsByProfile (env : Env) (r : Reconciler) (profile : PerformanceProfileInfo) :
    Except Error (Option (List Condition)) := do
  let mcpList ← r.ListMachineConfigPools
  let filtered := removeMCPDuplicateEntries mcpList
  let machineConfigPoolSelector := GetMachineConfigPoolSelector env profile
  let message ← filtered.foldlM (writeMCP r machineConfigPoolSelector) ""
  let messageString := message
  if messageString = "" then
    pure none
  else
    pure (some (getDegradedConditions r conditionReasonMCPDegraded messageString))

/-- Library function `errors.IsNotFound`: the error reports that the requested
object does not exist. -/
def IsNotFound (err : Error) : Bool :=
  match err with
  | .notFound _ => true
  | _ => false

/-- The loop of `getLatestKubeletConfigCondition` from index `i` on; the pointer
`latestCondition` into the slice is the pair of an index and the condition
stored there. `Time.Before` is the strict order on times. -/
def getLatestKubeletConfigConditionLoop :
    Nat → List KubeletConfigCondition → Option (Nat × KubeletConfigCondition) →
    Option (Nat × KubeletConfigCondition)
  | _, [], latestCondition => latestCondition
  | i, condition :: rest, latestCondition =>
    match latestCondition with
    | none => getLatestKubeletConfigConditionLoop (i + 1) rest (some (i, condition))
    | some latest =>
      if latest.2.LastTransitionTime < condition.LastTransitionTime then
        getLatestKubeletConfigConditionLoop (i + 1) rest (some (i, condition))
      else
        getLatestKubeletConfigConditionLoop (i + 1) rest (some latest)

/-- Function `getLatestKubeletConfigCondition`, with the list position of the
returned condition. -/
def getLatestKubeletConfigConditionAt (conditions : List KubeletConfigCondition) :
    Option (Nat × KubeletConfigCondition) :=
  getLatestKubeletConfigConditionLoop 0 conditions none

/-- Function `getLatestKubeletConfigCondition`; `none` is the nil pointer. -/
def getLatestKubeletConfigCondition (conditions : List KubeletConfigCondition) :
    Option KubeletConfigCondition :=
  (getLatestKubeletConfigConditionAt conditions).map Prod.snd

/-- Method `getKubeletConditionsByProfile`; the result `none` is the nil slice. -/
def getKubeletConditionsByProfile (env : Env) (r : Reconciler)
    (profile : PerformanceProfileInfo) : Except Error (Option (List Condition)) :=
  let name := env.GetComponentName profile.Name env.ComponentNamePrefix
  match r.getKubeletConfig name with
  | .error err =>
    -- do not drop an error when kubelet config does not exist
    if IsNotFound err then .ok none else .error err
  | .ok kc =>
    match getLatestKubeletConfigCondition kc.Status.Conditions with
    | none => .ok none
    | some latestCondition =>
      if latestCondition.Type_ ≠ KubeletConfigFailure then
        .ok none
      else
        .ok (some (getDegradedConditions r conditionKubeletFailed latestCondition.Message))

/-- Function `removeUnMatchedTunedProfiles`: the Tuned profiles whose name is the
name of one of the nodes. -/
def removeUnMatchedTunedProfiles (nodes : List Node) (profiles : List TunedProfile) :
    List TunedProfile :=
  profiles.foldl
    (fun filteredProfiles profile =>
      if nodes.any (fun node => profile.Name = node.Name) then filteredProfiles ++ [profile]
      else filteredProfiles)
    []

/-- State of the loop of `getTunedConditionsByProfile` over the conditions of one
Tuned profile. The range variable `condition` is a single variable for the
whole loop (Go before 1.22) and `tunedDegradedCondition = &condition` stores
the address of that variable, so the state keeps the variable, the two flags
and whether the pointer was set; the pointer is read through `condition`. -/
structure TunedLoopState where
  condition : ProfileStatusCondition
  isDegraded : Bool
  isApplied : Bool
  tunedDegradedConditionSet : Bool
  deriving DecidableEq, Repr

/-- Body of the loop of `getTunedConditionsByProfile` over the conditions of one
Tuned profile. -/
def tunedConditionStep (st : TunedLoopState) (element : ProfileStatusCondition) :
    TunedLoopState :=
  -- the range clause assigns the next element to the variable `condition`
  let st := { st with condition := element }
  let st :=
    if st.condition.Type_ = TunedDegraded ∧ st.condition.Status = ConditionTrue then
      { st with isDegraded := true, tunedDegradedConditionSet := true }
    else st
  if st.condition.Type_ = TunedProfileApplied ∧ st.condition.Status = ConditionFalse then
    { st with isApplied := false }
  else st

/-- The state in which the loop over the conditions of a Tuned profile starts. -/
def tunedLoopStart : TunedLoopState :=
  { condition := { Type_ := "", Status := "" },
    isDegraded := false, isApplied := true, tunedDegradedConditionSet := false }

/-- Body of the loop of `getTunedConditionsByProfile` over the filtered Tuned
profiles; `message` is the buffer. -/
def writeTunedProfile (message : String) (tunedProfile : TunedProfile) : String :=
  let st := tunedProfile.Status.Conditions.foldl tunedConditionStep tunedLoopStart
  -- We need both condition to exists,
  -- since there is a scenario where both Degraded & Applied condition are true
  if st.isDegraded = true ∧ st.isApplied = false then
    -- the pointer `tunedDegradedCondition` is read: it holds the range variable
    let tunedDegradedCondition := st.condition
    let message :=
      if tunedDegradedCondition.Reason ≠ "" then
        message ++ ("Tuned " ++ tunedProfile.Name ++ " Degraded Reason: " ++
          tunedDegradedCondition.Reason ++ ".\n")
      else message
    if tunedDegradedCondition.Message ≠ "" then
      message ++ ("Tuned " ++ tunedProfile.Name ++ " Degraded Message: " ++
        tunedDegradedCondition.Message ++ ".\n")
    else message
  else message

/-- Method `getTunedConditionsByProfile`; the result `none` is the nil slice. -/
def getTunedConditionsByProfile (r : Reconciler) (profile : PerformanceProfileInfo) :
    Except Error (Option (List Condition)) := do
  let tunedProfileList ← r.ListTunedProfiles
  let nodes ← r.ListNodes profile.Spec.NodeSelector
  -- remove Tuned profiles that are not associate with this perfomance profile
  -- Tuned profile's name and node's name should be equal
  let filtered := removeUnMatchedTunedProfiles nodes tunedProfileList
  let message := filtered.foldl writeTunedProfile ""
  let messageString := message
  if messageString = "" then
    pure none
  else
    pure (some (getDegradedConditions r conditionReasonTunedDegraded messageString))

/-- Modelled from the spec: the status aggregator of the reconcile loop, which is
not part of the embedded sources ("fixed precedence, first non-nil wins, no
merging": MCP signal, then KubeletConfig signal, then Tuned signal; "if none
yield Degraded, caller supplies default Available/Progressing conditions";
"any downstream list/get failure" is returned as the error). -/
def aggregateConditions (env : Env) (r : Reconciler) (profile : PerformanceProfileInfo) :
    Except Error (List Condition) := do
  let conditions ← getMCPConditionsByProfile env r profile
  let conditions ←
    (match conditions with
     | some cs => pure (some cs)
     | none => getKubeletConditionsByProfile env r profile)
  let conditions ←
    (match conditions with
     | some cs => pure (some cs)
     | none => getTunedConditionsByProfile r profile)
  match conditions with
  | some cs => pure cs
  | none => pure (getAvailableConditions r)

/-! ## root.go of the performance-profile-creator command -/

/-- Struct `v1.NodeSelectorRequirement`. -/
structure NodeSelectorRequirement where
  Key : String
  Operator : String
  Values : List String := []
  deriving DecidableEq, Repr

/-- Struct `v1.NodeSelectorTerm`. -/
structure NodeSelectorTerm where
  MatchExpressions : List NodeSelectorRequirement := []
  MatchFields : List NodeSelectorRequirement := []
  deriving DecidableEq, Repr

/-- Struct `v1.NodeSelector`. -/
structure NodeSelector where
  NodeSelectorTerms : List NodeSelectorTerm := []
  deriving DecidableEq, Repr

def NodeSelectorOpIn : String := "In"

/-- Function `getNodeSelectorFromLabelSelector`; reading a field of a nil
selector panics. The second loop appends to `matchFields`, which stays the
empty slice made before it, and assigns the result to `matchExpressions`. -/
def getNodeSelectorFromLabelSelector (labelSelector : Option LabelSelector) :
    Except Error NodeSelector :=
  match labelSelector with
  | none => .error .nilPointerDereference
  | some labelSelector =>
    let matchExpressions : List NodeSelectorRequirement := []
    let matchExpressions := labelSelector.MatchLabels.foldl
      (fun matchExpressions kv =>
        matchExpressions ++ [{ Key := kv.1, Operator := NodeSelectorOpIn, Values := [kv.2] }])
      matchExpressions
    let matchFields : List NodeSelectorRequirement := []
    let matchExpressions := labelSelector.MatchExpressions.foldl
      (fun _ labelSelectorRequirement =>
        matchFields ++ [{ Key := labelSelectorRequirement.Key,
                          Operator := labelSelectorRequirement.Operator,
                          Values := labelSelectorRequirement.Values }])
      matchExpressions
    let nodeSelectorTerms : List NodeSelectorTerm :=
      [{ MatchExpressions := matchExpressions, MatchFields := matchFields }]
    .ok { NodeSelectorTerms := nodeSelectorTerms }

/-- The file system calls of `getMustGatherFullPaths`. -/
structure OS where
  /-- Call `filepath.Glob(pattern)`: the matches, in the order the glob lists
  them, and the error. -/
  Glob : String → List String × Option Error
  /-- Call `os.Stat(path)` followed by `info.ModTime()`. -/
  Stat : String → Except Error Time

/-- The loop of `getMustGatherFullPaths` over the matches; `latestTime` is never
assigned in the loop and `lastModifiedPath` is the path chosen so far.
`Time.After` is the strict order on times. -/
def getMustGatherFullPathsLoop (os : OS) (latestTime : Time) :
    List String → String → Except Error String
  | [], lastModifiedPath => .ok lastModifiedPath
  | path :: rest, lastModifiedPath =>
    match os.Stat path with
    | .error _ => .error (.other ("Error obtaining the path stats " ++ path))
    | .ok modTime =>
      if modTime > latestTime then
        getMustGatherFullPathsLoop os latestTime rest path
      else
        getMustGatherFullPathsLoop os latestTime rest lastModifiedPath

/-- Function `getMustGatherFullPaths`: the chosen path and the error. The zero
`time.Time` is 0. -/
def getMustGatherFullPaths (os : OS) (mustGatherPath : String) (suffix : String) :
    String × Option Error :=
  let globbed := os.Glob (mustGatherPath ++ "/*performance-addon-operator-must-gather*/" ++ suffix)
  let paths := globbed.1
  let err := globbed.2
  -- Out of all the paths that match the glob pattern we choose the path that was
  -- modified most recently.
  let latestTime : Time := 0
  match getMustGatherFullPathsLoop os latestTime paths "" with
  | .error statErr => ("", some statErr)
  | .ok lastModifiedPath => (lastModifiedPath, err)

/-! ## The CPU-list codec and the reserved-CPU set -/

/-- Splits a character list at every occurrence of the separator. -/
def splitChars (sep : Char) : List Char → List (List Char)
  | [] => [[]]
  | c :: cs =>
    if c = sep then [] :: splitChars sep cs
    else
      match splitChars sep cs with
      | [] => [[c]]
      | h :: t => (c :: h) :: t

/-- Reads a non-empty string of decimal digits. -/
def digitsToNat (cs : List Char) : Option Nat :=
  if cs ≠ [] ∧ cs.all Char.isDigit then
    some (cs.foldl (fun n c => 10 * n + (c.toNat - 48)) 0)
  else none

/-- Modelled from the spec: one element of a CPU list in "Linux range/list
syntax", a single CPU `a` or an inclusive range `a-b`; the codec
(`components.CPUListToMaskList` and the parser behind it) is not part of the
embedded sources. -/
def parseCPURange (cs : List Char) : Option (List Nat) :=
  match splitChars '-' cs with
  | [a] => (digitsToNat a).map fun n => [n]
  | [a, b] =>
    match digitsToNat a, digitsToNat b with
    | some lo, some hi => if lo ≤ hi then some (List.range' lo (hi - lo + 1)) else none
    | _, _ => none
  | _ => none

/-- Modelled from the spec: all elements of a comma-separated CPU list. -/
def parseCPURanges : List (List Char) → Option (List Nat)
  | [] => some []
  | r :: rest =>
    match parseCPURange r, parseCPURanges rest with
    | some a, some b => some (a ++ b)
    | _, _ => none

/-- Modelled from the spec: the CPUs denoted by a CPU-list string in "Linux
range/list syntax" (the codec is not part of the embedded sources); the empty
string denotes the empty set, a malformed string denotes nothing. -/
def parseCPUList (cpulist : String) : Option (List Nat) :=
  if cpulist = "" then some [] else parseCPURanges (splitChars ',' cpulist.toList)

/-- One hexadecimal digit. -/
def hexDigit (n : Nat) : Char :=
  "0123456789abcdef".toList.getD (n % 16) '0'

/-- Eight hexadecimal digits of a 32-bit word, most significant first. -/
def hexGroup (w : Nat) : String :=
  String.mk ((List.range 8).reverse.map fun i => hexDigit (w / 16 ^ i))

/-- Modelled from the spec: the codec `components.CPUListToMaskList` ("Linux
range/list syntax in, comma-grouped hex mask out", "error on malformed
input"), which is not part of the embedded sources: the bitmask of the listed
CPUs in comma-separated groups of eight hexadecimal digits, most significant
group first, as many groups as the highest CPU needs and at least one. -/
def CPUListToMaskList (cpulist : String) : Except Error String :=
  match parseCPUList cpulist with
  | none => .error (.invalidCPUList cpulist)
  | some cpus =>
    let mask := cpus.foldl (fun m cpu => m ||| 2 ^ cpu) 0
    let groups := cpus.foldl max 0 / 32 + 1
    .ok (",".intercalate
      ((List.range groups).reverse.map fun i => hexGroup (mask / 2 ^ (32 * i) % 2 ^ 32)))

/-- The reserved-CPU set of a profile: the CPUs its `Spec.CPU.Reserved` list
denotes, empty when the section or the field is unset. -/
def reservedCPUSet (profile : PerformanceProfileInfo) : List Nat :=
  match profile.Spec.CPU with
  | none => []
  | some cpu =>
    match cpu.Reserved with
    | none => []
    | some reserved => (parseCPUList reserved).getD []

/-! ## Sample environment and inputs -/

/-- A sample environment: every asset is readable, templates render to their
text followed by the arguments, and the codec is `CPUListToMaskList`. -/
def sampleEnv : Env where
  ReadFile := fun path => .ok ("<" ++ path ++ ">")
  Join := fun elems => "/".intercalate elems
  Execute := fun text args =>
    .ok (text ++ String.join (args.map fun kv => " " ++ kv.1 ++ "=" ++ kv.2))
  EncodeToString := fun content => content
  Serialize := fun options =>
    .ok (String.join (options.map fun o => o.Section ++ ":" ++ o.Name ++ "=" ++ o.Value ++ "\n"))
  Marshal := fun cfg => .ok (toString cfg.Storage.Files.length ++ " files, " ++
    toString cfg.Systemd.Units.length ++ " units")
  CPUListToMaskList := CPUListToMaskList
  GetComponentName := fun profileName pre => pre ++ "-" ++ profileName
  ComponentNamePrefix := "performance"
  ProfileNamePerformance := "openshift-node-performance"
  NamespaceNodeTuningOperator := "openshift-cluster-node-tuning-operator"
  MachineConfigRoleLabelKey := "machineconfiguration.openshift.io/role"
  GetFirstKeyAndValue := fun m =>
    match m with
    | some (kv :: _) => kv
    | _ => ("", "")
  SplitLabelKey := fun key =>
    match splitChars '/' key.toList with
    | [domain, role] => (String.mk domain, String.mk role, none)
    | _ => ("", "", some (.other key))
  MachineConfigGroupVersion := "machineconfiguration.openshift.io/v1"

/-- Scenario A of the specification: Reserved "0-1" and one 1G page entry with
count 4 bound to NUMA node 0. -/
def scenarioA : PerformanceProfileInfo :=
  { Name := "manual",
    Spec := { CPU := some { Reserved := some "0-1", Isolated := some "2-3" },
              HugePages := some { Pages := [{ Size := "1G", Count := 4, Node := some 0 }] } } }

/-- A profile whose Reserved field is set to the empty CPU list. -/
def emptyReservedProfile : PerformanceProfileInfo :=
  { Name := "manual", Spec := { CPU := some { Reserved := some "" } } }

/-- A second profile: scenario A with the real-time kernel enabled. -/
def realtimeProfile : PerformanceProfileInfo :=
  { scenarioA with
    Spec := { scenarioA.Spec with RealTimeKernel := some { Enabled := some true } } }

/-- The bundle `getIgnitionConfig` returns for scenario A in the sample
environment (the empty bundle if it failed). -/
def scenarioAConfig : Config :=
  match getIgnitionConfig sampleEnv "/assets" scenarioA with
  | .ok cfg => cfg
  | .error _ => {}

/-- The bundle `getIgnitionConfig` returns for `emptyReservedProfile` in the
sample environment (the empty bundle if it failed). -/
def emptyReservedConfig : Config :=
  match getIgnitionConfig sampleEnv "/assets" emptyReservedProfile with
  | .ok cfg => cfg
  | .error _ => {}

/-- The machine config `New` returns for `realtimeProfile` in the sample
environment (an empty one if it failed). -/
def realtimeMachineConfig : MachineConfig :=
  match New sampleEnv "/assets" realtimeProfile with
  | .ok mc => mc
  | .error _ =>
    { APIVersion := "", Kind := "", Name := "", Labels := [], Config := "", KernelType := "" }

/-! ## Specification-side notions for the unit list -/

/-- The page entries of a profile that are bound to a NUMA node, in list order. -/
def numaPages (profile : PerformanceProfileInfo) : List HugePage :=
  match profile.Spec.HugePages with
  | none => []
  | some hugePages => hugePages.Pages.filter fun page => page.Node.isSome

/-- A hugepages-allocation unit is recognised by the start of its name. -/
def isHugepagesUnit (u : Unit) : Bool :=
  "hugepages-allocation-".toList.isPrefixOf u.Name.toList

/-- The unit is the hugepages-allocation unit of the NUMA-bound page entry:
enabled, named from the size in kilobytes and the node, with the serialised
allocation options as contents. -/
def IsHugepagesUnitOf (env : Env) (page : HugePage) (u : Unit) : Prop :=
  ∃ node kb content, page.Node = some node ∧ GetHugepagesSizeKilobytes page.Size = .ok kb ∧
    env.Serialize (getHugepagesAllocationUnitOptions kb page.Count node) = .ok content ∧
    u = { Contents := some content, Enabled := some true,
          Name := "hugepages-allocation-" ++ kb ++ "kB-NUMA" ++ toString node ++ ".service" }

/-- The list holds the units emitted for the reserved CPU list: none when the
CPU section or the Reserved field is unset, else the one `update-rps@` unit. -/
def IsRPSUnitsOf (env : Env) (profile : PerformanceProfileInfo) (us : List Unit) : Prop :=
  match profile.Spec.CPU with
  | none => us = []
  | some cpu =>
    match cpu.Reserved with
    | none => us = []
    | some reserved =>
      ∃ mask content, env.CPUListToMaskList reserved = .ok mask ∧
        env.Serialize (getRPSUnitOptions mask) = .ok content ∧
        us = [{ Contents := some content, Name := "update-rps@.service" }]

/-- The name the specification gives the unit of a page entry with a valid
size token (1G or 2M): a function of the size token and the NUMA node only. -/
def hugepagesUnitName (size : String) (node : Int) : String :=
  "hugepages-allocation-" ++ (if size = "1G" then "1048576" else "2048") ++ "kB-NUMA" ++
    toString node ++ ".service"

/-! ## Specification-side notions for the status functions -/

/-- Two conditions agree in type, status, reason and message; their timestamps
may differ. -/
def SameUpToTimestamps (a b : Condition) : Prop :=
  a.Type_ = b.Type_ ∧ a.Status = b.Status ∧ a.Reason = b.Reason ∧ a.Message = b.Message

/-- The pools `removeMCPDuplicateEntries` keeps when the names in `seen` have
already been met: every pool whose name was not met before. -/
def keepUnseen (seen : List String) : List MachineConfigPool → List MachineConfigPool
  | [] => []
  | mcp :: rest =>
    if mcp.Name ∈ seen then keepUnseen seen rest
    else mcp :: keepUnseen (mcp.Name :: seen) rest

/-- A pool condition that signals degradation: type NodeDegraded or
RenderDegraded with status True. -/
def isDegradedMCPCondition (condition : MachineConfigPoolCondition) : Bool :=
  (condition.Type_ = "NodeDegraded" ∨ condition.Type_ = "RenderDegraded") ∧
    condition.Status = "True"

/-- The text one degraded condition of the pool `name` adds to the message: a
reason line when the reason is non-empty, then a message line when the message
is non-empty. -/
def degradedMCPConditionText (name : String) (condition : MachineConfigPoolCondition) :
    String :=
  (if condition.Reason ≠ "" then
      "Machine config pool " ++ name ++ " Degraded Reason: " ++ condition.Reason ++ ".\n"
    else "") ++
  (if condition.Message ≠ "" then
      "Machine config pool " ++ name ++ " Degraded Message: " ++ condition.Message ++ ".\n"
    else "")

/-- The pool's machine-config selector converts to a selector that matches the
label set. -/
def poolMatches (r : Reconciler) (labels : StringMap) (mcp : MachineConfigPool) : Bool :=
  match r.LabelSelectorAsSelector mcp.Spec.MachineConfigSelector with
  | .ok selector => selector.Matches labels
  | .error _ => false

/-- The message accumulated over the pools whose selector matches the label
set, from their degraded conditions, in list order. -/
def accumulatedMCPMessage (r : Reconciler) (labels : StringMap)
    (pools : List MachineConfigPool) : String :=
  String.join ((pools.filter (poolMatches r labels)).map fun mcp =>
    String.join ((mcp.Status.Conditions.filter isDegradedMCPCondition).map
      (degradedMCPConditionText mcp.Name)))

/-! ## Sample reconciler and pools -/

/-- One requirement of a label selector checked against a label set, as
`labels.Requirement.Matches` does for the four set-based operators. -/
def requirementMatches (req : LabelSelectorRequirement) (ls : StringMap) : Bool :=
  if req.Operator = "In" then
    match ls.lookup req.Key with
    | some v => req.Values.contains v
    | none => false
  else if req.Operator = "NotIn" then
    match ls.lookup req.Key with
    | some v => !req.Values.contains v
    | none => true
  else if req.Operator = "Exists" then (ls.lookup req.Key).isSome
  else if req.Operator = "DoesNotExist" then (ls.lookup req.Key).isNone
  else false

/-- A sample of `metav1.LabelSelectorAsSelector`: a nil selector matches
nothing, an empty one everything, an expression with an operator other than
In, NotIn, Exists and DoesNotExist is an error, and otherwise all labels and
expressions must match. -/
def sampleLabelSelectorAsSelector (ps : Option LabelSelector) : Except Error Selector :=
  match ps with
  | none => .ok { Matches := fun _ => false }
  | some ps =>
    if ps.MatchLabels.length + ps.MatchExpressions.length = 0 then
      .ok { Matches := fun _ => true }
    else
      match ps.MatchExpressions.find?
          (fun e => !(["In", "NotIn", "Exists", "DoesNotExist"].contains e.Operator)) with
      | some e => .error (.invalidSelector e.Operator)
      | none =>
        .ok { Matches := fun ls =>
                ps.MatchLabels.all (fun kv => ls.lookup kv.1 == some kv.2) &&
                ps.MatchExpressions.all (fun e => requirementMatches e ls) }

/-- A sample reconciler whose pool list succeeds with the given pools. -/
def sampleReconciler (mcps : List MachineConfigPool) : Reconciler :=
  { ListMachineConfigPools := .ok mcps,
    LabelSelectorAsSelector := sampleLabelSelectorAsSelector,
    StatusUpdate := fun _ => none,
    Now := 1000,
    getKubeletConfig := fun name => .error (.notFound name),
    ListTunedProfiles := .ok [],
    ListNodes := fun _ => .ok [] }

/-- A profile that selects the pools labelled with the role worker-cnf. -/
def statusProfile : PerformanceProfileInfo :=
  { Name := "manual",
    Spec := { MachineConfigPoolSelector :=
                some [("machineconfiguration.openshift.io/role", "worker-cnf")] } }

/-- A pool that matches `statusProfile` and reports NodeDegraded. -/
def degradedPool : MachineConfigPool :=
  { Name := "worker-cnf",
    Spec := { MachineConfigSelector := some {
      MatchExpressions := [{ Key := "machineconfiguration.openshift.io/role",
                             Operator := "In", Values := ["worker", "worker-cnf"] }] } },
    Status := { Conditions :=
      [ { Type_ := "Updated", Status := "False" },
        { Type_ := "NodeDegraded", Status := "True", Reason := "1 nodes are reporting degraded",
          Message := "Node n1 is reporting: disk full" } ] } }

/-- A second entry with the name of `degradedPool`, as a list with duplicates
returns it. -/
def degradedPoolAgain : MachineConfigPool :=
  { degradedPool with
    Status := { Conditions :=
      [ { Type_ := "RenderDegraded", Status := "True", Reason := "again" } ] } }

/-- A healthy pool that does not match `statusProfile`. -/
def masterPool : MachineConfigPool :=
  { Name := "master",
    Spec := { MachineConfigSelector := some {
      MatchLabels := [("machineconfiguration.openshift.io/role", "master")] } },
    Status := { Conditions := [ { Type_ := "RenderDegraded", Status := "True",
                                  Reason := "bad render" } ] } }

/-- A pool whose machine-config selector uses an operator that is not a label
selector operator. -/
def brokenSelectorPool : MachineConfigPool :=
  { Name := "broken",
    Spec := { MachineConfigSelector := some {
      MatchExpressions := [{ Key := "machineconfiguration.openshift.io/role",
                             Operator := "Near", Values := ["worker-cnf"] }] } } }

/-- A stored status with one condition per type and both references set. -/
def storedStatus : PerformanceProfileStatus :=
  { Conditions :=
      [ { Type_ := "Available", Status := "True", LastTransitionTime := 10,
          LastHeartbeatTime := 10 },
        { Type_ := "Upgradeable", Status := "True", LastTransitionTime := 10,
          LastHeartbeatTime := 10 },
        { Type_ := "Progressing", Status := "False", LastTransitionTime := 10,
          LastHeartbeatTime := 10 },
        { Type_ := "Degraded", Status := "False", LastTransitionTime := 10,
          LastHeartbeatTime := 10 } ],
    Tuned := some "openshift-cluster-node-tuning-operator/openshift-node-performance-manual",
    RuntimeClass := some "performance-manual" }

/-- A profile carrying `storedStatus`. -/
def storedProfile : PerformanceProfileInfo :=
  { Name := "manual", Status := storedStatus }

/-! ## Sample inputs for the KubeletConfig, Tuned and command-line functions -/

/-- Two KubeletConfig conditions with the same transition time, the Failure
condition first. -/
def tiedKubeletConditions : List KubeletConfigCondition :=
  [ { Type_ := "Failure", Status := "False", LastTransitionTime := 5, Message := "boom" },
    { Type_ := "Success", Status := "True", LastTransitionTime := 5, Message := "fine" } ]

/-- A KubeletConfig whose latest condition is a Failure. -/
def failedKubeletConfig : KubeletConfig :=
  { Name := "performance-manual",
    Status := { Conditions :=
      [ { Type_ := "Success", Status := "True", LastTransitionTime := 1, Message := "fine" },
        { Type_ := "Failure", Status := "False", LastTransitionTime := 7, Message := "boom" } ] } }

/-- A KubeletConfig whose Failure condition is older than its latest condition. -/
def recoveredKubeletConfig : KubeletConfig :=
  { Name := "performance-manual",
    Status := { Conditions :=
      [ { Type_ := "Failure", Status := "False", LastTransitionTime := 1, Message := "boom" },
        { Type_ := "Success", Status := "True", LastTransitionTime := 7, Message := "fine" } ] } }

/-- A sample reconciler whose KubeletConfig lookup gives the result `kc`. -/
def kubeletReconciler (kc : Except Error KubeletConfig) : Reconciler :=
  { sampleReconciler [] with getKubeletConfig := fun _ => kc }

/-- The node of the sample Tuned profiles. -/
def node1 : Node := { Name := "node1" }

/-- A Tuned profile of `node1` whose Degraded condition is the last one. -/
def degradedTunedProfile : TunedProfile :=
  { Name := "node1",
    Status := { Conditions :=
      [ { Type_ := "Applied", Status := "False", Reason := "Failed",
          Message := "The Tuned daemon profile not yet applied" },
        { Type_ := "Degraded", Status := "True", Reason := "TunedError",
          Message := "Tuned daemon issued one or more error message(s)" } ] } }

/-- A Tuned profile of `node1` with the same two conditions, the Degraded
condition first. -/
def degradedFirstTunedProfile : TunedProfile :=
  { Name := "node1",
    Status := { Conditions :=
      [ { Type_ := "Degraded", Status := "True", Reason := "TunedError",
          Message := "Tuned daemon issued one or more error message(s)" },
        { Type_ := "Applied", Status := "False", Reason := "Failed",
          Message := "The Tuned daemon profile not yet applied" } ] } }

/-- A Tuned profile of `node1` that is degraded but applied. -/
def appliedTunedProfile : TunedProfile :=
  { Name := "node1",
    Status := { Conditions :=
      [ { Type_ := "Applied", Status := "True", Reason := "AsExpected" },
        { Type_ := "Degraded", Status := "True", Reason := "TunedError",
          Message := "Tuned daemon issued one or more error message(s)" } ] } }

/-- A sample reconciler with the given pools and Tuned profiles and the node
`node1`; the profile has no KubeletConfig. -/
def tunedReconciler (mcps : List MachineConfigPool) (profiles : List TunedProfile) :
    Reconciler :=
  { sampleReconciler mcps with
    ListTunedProfiles := .ok profiles,
    ListNodes := fun _ => .ok [node1] }

/-- A pool node selector with one label and one expression. -/
def sampleNodeSelector : LabelSelector :=
  { MatchLabels := [("node-role.kubernetes.io/worker-cnf", "")],
    MatchExpressions := [{ Key := "zone", Operator := "In", Values := ["a", "b"] }] }

/-- A must-gather directory with two image directories: the glob lists the one
modified at time 200 before the one modified at time 100. -/
def sampleOS : OS :=
  { Glob := fun _ =>
      (["must-gather/a-performance-addon-operator-must-gather-1/cluster-scoped-resources",
        "must-gather/b-performance-addon-operator-must-gather-2/cluster-scoped-resources"],
       none),
    Stat := fun path =>
      if path = "must-gather/a-performance-addon-operator-must-gather-1/cluster-scoped-resources"
      then .ok 200 else .ok 100 }

/-- The same directory with the two matches listed in the other order. -/
def sampleOSReversed : OS :=
  { Glob := fun pattern => ((sampleOS.Glob pattern).1.reverse, none),
    Stat := sampleOS.Stat }

/-- A pool that matches `statusProfile` and reports NodeDegraded with status
True but with neither a reason nor a message. -/
def silentDegradedPool : MachineConfigPool :=
  { Name := "worker-cnf",
    Spec := degradedPool.Spec,
    Status := { Conditions := [ { Type_ := "NodeDegraded", Status := "True" } ] } }

/-- A profile without a CPU section. -/
def noCPUProfile : PerformanceProfileInfo :=
  { Name := "manual", Spec := { CPU := none } }

/-- The text the specification expects for a degraded Tuned profile named
`name` whose Degraded condition has the given reason and message. -/
def expectedTunedText (name reason message : String) : String :=
  (if reason ≠ "" then "Tuned " ++ name ++ " Degraded Reason: " ++ reason ++ ".\n" else "") ++
  (if message ≠ "" then "Tuned " ++ name ++ " Degraded Message: " ++ message ++ ".\n" else "")

/-- The condition `c` stands at position `i` of the list, no condition of the
list transitioned later, and every condition before position `i` transitioned
strictly earlier: `c` is the first of the most recently transitioned ones. -/
def IsFirstLatest (conditions : List KubeletConfigCondition) (i : Nat)
    (c : KubeletConfigCondition) : Prop :=
  conditions[i]? = some c ∧
  (∀ (j : Nat) (c' : KubeletConfigCondition), conditions[j]? = some c' →
    c'.LastTransitionTime ≤ c.LastTransitionTime) ∧
  (∀ (j : Nat) (c' : KubeletConfigCondition), j < i → conditions[j]? = some c' →
    c'.LastTransitionTime < c.LastTransitionTime)

/-- Invariant of the loop of `getLatestKubeletConfigCondition` after the
conditions `pre` have been visited. -/
def LatestInv (pre : List KubeletConfigCondition)
    (latest : Option (Nat × KubeletConfigCondition)) : Prop :=
  match latest with
  | none => pre = []
  | some (i, c) => IsFirstLatest pre i c

/-- The Tuned profile has a Degraded condition with status True. -/
def HasDegradedTrue (tunedProfile : TunedProfile) : Prop :=
  ∃ c ∈ tunedProfile.Status.Conditions, c.Type_ = "Degraded" ∧ c.Status = "True"

/-- The Tuned profile has an Applied condition with status False. -/
def HasAppliedFalse (tunedProfile : TunedProfile) : Prop :=
  ∃ c ∈ tunedProfile.Status.Conditions, c.Type_ = "Applied" ∧ c.Status = "False"

/-! ## Theorems -/

/-- C1: `GetHugepagesSizeKilobytes` maps "2M" to "2048" and "1G" to "1048576"
without error, and every other token (among them "", "2m" and "1Gi") to an
error carrying no size. -/
theorem GetHugepagesSizeKilobytes_table :
    GetHugepagesSizeKilobytes "2M" = .ok "2048" ∧
    GetHugepagesSizeKilobytes "1G" = .ok "1048576" ∧
    (∀ s : String, s ≠ "2M" → s ≠ "1G" →
      GetHugepagesSizeKilobytes s = .error (.cannotConvertSize s)) ∧
    (∀ s kb : String, GetHugepagesSizeKilobytes s = .ok kb →
      (s = "2M" ∧ kb = "2048") ∨ (s = "1G" ∧ kb = "1048576")) := by
  refine ⟨by decide, by decide, ?_, ?_⟩
  · intro s h2 h1
    simp [GetHugepagesSizeKilobytes, h1, h2]
  · intro s kb h
    unfold GetHugepagesSizeKilobytes at h
    split_ifs at h with h1 h2
    · right; exact ⟨h1, by cases h; rfl⟩
    · left; exact ⟨h2, by cases h; rfl⟩

/-- Witness for C1 at the tokens "", "2m" and "1Gi". -/
theorem GetHugepagesSizeKilobytes_table_witness :
    GetHugepagesSizeKilobytes "" = .error (.cannotConvertSize "") ∧
    GetHugepagesSizeKilobytes "2m" = .error (.cannotConvertSize "2m") ∧
    GetHugepagesSizeKilobytes "1Gi" = .error (.cannotConvertSize "1Gi") :=
  ⟨GetHugepagesSizeKilobytes_table.2.2.1 "" (by decide) (by decide),
   GetHugepagesSizeKilobytes_table.2.2.1 "2m" (by decide) (by decide),
   GetHugepagesSizeKilobytes_table.2.2.1 "1Gi" (by decide) (by decide)⟩

/-! ### Helper lemmas -/

theorem bind_eq_ok {ε α β : Type} (x : Except ε α) (f : α → Except ε β) (b : β) :
    (x >>= f) = .ok b ↔ ∃ a, x = .ok a ∧ f a = .ok b := by
  cases x <;> simp [bind, Except.bind]

theorem addContent_systemd (env : Env) (cfg : Config) (content dst : String) (mode : Nat)
    (cfg' : Config) (h : addContent env cfg content dst mode = .ok cfg') :
    cfg'.Systemd = cfg.Systemd := by
  unfold addContent at h
  cases h
  rfl

theorem addFile_systemd (env : Env) (cfg : Config) (src dst : String) (mode : Nat)
    (cfg' : Config) (h : addFile env cfg src dst mode = .ok cfg') :
    cfg'.Systemd = cfg.Systemd := by
  unfold addFile at h
  rw [bind_eq_ok] at h
  obtain ⟨c, -, h⟩ := h
  exact addContent_systemd env cfg c dst mode cfg' h

theorem foldlM_addHugepagesUnit (env : Env) (pages : List HugePage) :
    ∀ cfg cfg' : Config, pages.foldlM (addHugepagesUnit env) cfg = .ok cfg' →
      ∃ us, cfg'.Systemd.Units = cfg.Systemd.Units ++ us ∧
        List.Forall₂ (IsHugepagesUnitOf env) (pages.filter fun page => page.Node.isSome) us := by
  induction pages with
  | nil =>
    intro cfg cfg' h
    simp [List.foldlM, pure, Except.pure] at h
    subst h
    exact ⟨[], by simp, by simp⟩
  | cons page rest ih =>
    intro cfg cfg' h
    rw [List.foldlM_cons, bind_eq_ok] at h
    obtain ⟨mid, hmid, hrest⟩ := h
    obtain ⟨us, hus, hrel⟩ := ih mid cfg' hrest
    unfold addHugepagesUnit at hmid
    cases hnode : page.Node with
    | none =>
      simp only [hnode] at hmid
      cases hmid
      exact ⟨us, hus, by simpa [List.filter, hnode] using hrel⟩
    | some node =>
      simp only [hnode, bind_eq_ok, getSystemdContent] at hmid
      obtain ⟨kb, hkb, content, hcontent, hcfg⟩ := hmid
      simp only [pure, Except.pure, Except.ok.injEq] at hcfg
      subst hcfg
      refine ⟨({ Contents := some content, Enabled := some true,
                 Name := getSystemdService
                   (hugepagesAllocation ++ "-" ++ kb ++ "kB-NUMA" ++ toString node) } : Unit)
               :: us, ?_, ?_⟩
      · simp only at hus
        rw [hus, List.append_assoc]; rfl
      · simp only [List.filter, hnode, Option.isSome_some]
        refine List.Forall₂.cons ⟨node, kb, content, hnode, hkb, hcontent, ?_⟩ hrel
        simp [getSystemdService, hugepagesAllocation, String.append_assoc]

/-- The unit list of a successful `getIgnitionConfig`: the hugepages units of
the NUMA-bound pages, in order, followed by the units of the reserved CPU list. -/
theorem getIgnitionConfig_units (env : Env) (assetsDir : String)
    (profile : PerformanceProfileInfo) (cfg : Config)
    (h : getIgnitionConfig env assetsDir profile = .ok cfg) :
    ∃ hus rus, cfg.Systemd.Units = hus ++ rus ∧
      List.Forall₂ (IsHugepagesUnitOf env) (numaPages profile) hus ∧
      IsRPSUnitsOf env profile rus := by
  unfold getIgnitionConfig at h
  simp only [bind_eq_ok, List.foldlM_cons, List.foldlM_nil] at h
  obtain ⟨c3, ⟨c1, h1, c2, h2, c3', h3, h3'⟩, snippet, -, c4, h4, hook, -, c5, h5, c6, h6,
    c7, h7, h8⟩ := h
  cases h3'
  have e1 := addFile_systemd _ _ _ _ _ _ h1
  have e2 := addFile_systemd _ _ _ _ _ _ h2
  have e3 := addFile_systemd _ _ _ _ _ _ h3
  have e4 := addContent_systemd _ _ _ _ _ _ h4
  have e5 := addContent_systemd _ _ _ _ _ _ h5
  have e6 := addFile_systemd _ _ _ _ _ _ h6
  have hc6 : c6.Systemd.Units = [] := by rw [e6, e5, e4, e3, e2, e1]
  have hhuge : ∃ hus, c7.Systemd.Units = hus ∧
      List.Forall₂ (IsHugepagesUnitOf env) (numaPages profile) hus := by
    unfold numaPages
    cases hp : profile.Spec.HugePages with
    | none =>
      simp only [hp, pure, Except.pure, Except.ok.injEq] at h7
      subst h7
      exact ⟨[], hc6, List.Forall₂.nil⟩
    | some hugePages =>
      simp only [hp] at h7
      obtain ⟨us, hus, hrel⟩ := foldlM_addHugepagesUnit env _ _ _ h7
      rw [hc6, List.nil_append] at hus
      exact ⟨us, hus, hrel⟩
  obtain ⟨hus, hhus, hrel⟩ := hhuge
  unfold IsRPSUnitsOf
  cases hcpu : profile.Spec.CPU with
  | none =>
    simp only [hcpu, pure, Except.pure, Except.ok.injEq] at h8
    subst h8
    exact ⟨hus, [], by simpa using hhus, hrel, rfl⟩
  | some cpu =>
    cases hres : cpu.Reserved with
    | none =>
      simp only [hcpu, hres, pure, Except.pure, Except.ok.injEq] at h8
      subst h8
      refine ⟨hus, [], by simpa using hhus, hrel, ?_⟩
      simp only [hres]
    | some reserved =>
      simp only [hcpu, hres, bind_eq_ok, getSystemdContent] at h8
      obtain ⟨mask, hmask, content, hcontent, hcfg⟩ := h8
      simp only [pure, Except.pure, Except.ok.injEq] at hcfg
      subst hcfg
      refine ⟨hus, [{ Contents := some content, Name := "update-rps@.service" }], ?_, hrel, ?_⟩
      · simp [hhus, getSystemdService]
      · simp only [hres]
        exact ⟨mask, content, hmask, hcontent, rfl⟩

theorem hugepages_name_ne_rps (x : String) :
    "hugepages-allocation-" ++ x ≠ "update-rps@.service" := by
  intro h
  have h2 : ("hugepages-allocation-" ++ x).data.head? =
      ("update-rps@.service" : String).data.head? := by rw [h]
  have h3 : ("hugepages-allocation-" ++ x).data.head? = some 'h' := rfl
  rw [h3] at h2
  exact absurd h2 (by decide)

theorem name_ne_rps_of_unitOf {env : Env} {page : HugePage} {u : Unit}
    (h : IsHugepagesUnitOf env page u) : u.Name ≠ "update-rps@.service" := by
  obtain ⟨node, kb, content, -, -, -, rfl⟩ := h
  simp only [String.append_assoc]
  exact hugepages_name_ne_rps _

theorem isHugepagesUnit_of_unitOf {env : Env} {page : HugePage} {u : Unit}
    (h : IsHugepagesUnitOf env page u) : isHugepagesUnit u = true := by
  obtain ⟨node, kb, content, -, -, -, rfl⟩ := h
  simp only [isHugepagesUnit, String.append_assoc, String.toList, String.data_append,
    List.isPrefixOf_iff_prefix]
  exact List.prefix_append _ _

theorem forall₂_hugepages_mem {env : Env} {pages : List HugePage} {us : List Unit}
    (h : List.Forall₂ (IsHugepagesUnitOf env) pages us) :
    ∀ u ∈ us, ∃ page ∈ pages, IsHugepagesUnitOf env page u := by
  induction h with
  | nil => intro u hu; cases hu
  | cons hhead _ ih =>
    intro u hu
    rcases List.mem_cons.1 hu with rfl | hu
    · exact ⟨_, List.mem_cons_self _ _, hhead⟩
    · obtain ⟨page, hp, hrel⟩ := ih u hu
      exact ⟨page, List.mem_cons_of_mem _ hp, hrel⟩

theorem not_hugepages_of_rpsUnits {env : Env} {profile : PerformanceProfileInfo}
    {us : List Unit} (h : IsRPSUnitsOf env profile us) :
    ∀ u ∈ us, isHugepagesUnit u = false := by
  unfold IsRPSUnitsOf at h
  intro u hu
  split at h
  · subst h; cases hu
  · split at h
    · subst h; cases hu
    · obtain ⟨mask, content, -, -, rfl⟩ := h
      simp only [List.mem_singleton] at hu
      subst hu
      rfl

/-- The hugepages units of a successful `getIgnitionConfig` are exactly the
units of the NUMA-bound pages. -/
theorem getIgnitionConfig_filter_hugepages (env : Env) (assetsDir : String)
    (profile : PerformanceProfileInfo) (cfg : Config)
    (h : getIgnitionConfig env assetsDir profile = .ok cfg) :
    List.Forall₂ (IsHugepagesUnitOf env) (numaPages profile)
      (cfg.Systemd.Units.filter isHugepagesUnit) := by
  obtain ⟨hus, rus, hcfg, hrel, hrps⟩ := getIgnitionConfig_units env assetsDir profile cfg h
  have h1 : hus.filter isHugepagesUnit = hus := by
    rw [List.filter_eq_self]
    intro u hu
    obtain ⟨page, -, hp⟩ := forall₂_hugepages_mem hrel u hu
    exact isHugepagesUnit_of_unitOf hp
  have h2 : rus.filter isHugepagesUnit = [] := by
    rw [List.filter_eq_nil_iff]
    intro u hu
    simp [not_hugepages_of_rpsUnits hrps u hu]
  rw [hcfg, List.filter_append, h1, h2, List.append_nil]
  exact hrel

/-! ### C3: the `update-rps@` unit -/

/-- C3 (amended): whenever `getIgnitionConfig` succeeds, the unit list contains
a unit named "update-rps@.service" if and only if `Spec.CPU` and its `Reserved`
field are both set (whatever set the list denotes, the empty one included),
and it never contains more than one such unit. -/
theorem getIgnitionConfig_rps_unit_iff_reserved_set (env : Env) (assetsDir : String)
    (profile : PerformanceProfileInfo) (cfg : Config)
    (h : getIgnitionConfig env assetsDir profile = .ok cfg) :
    ((∃ u ∈ cfg.Systemd.Units, u.Name = "update-rps@.service") ↔
      ∃ cpu reserved, profile.Spec.CPU = some cpu ∧ cpu.Reserved = some reserved) ∧
    (cfg.Systemd.Units.filter fun u => u.Name = "update-rps@.service").length ≤ 1 := by
  obtain ⟨hus, rus, hcfg, hrel, hrps⟩ := getIgnitionConfig_units env assetsDir profile cfg h
  have hnone : ∀ u ∈ hus, u.Name ≠ "update-rps@.service" := by
    intro u hu
    obtain ⟨page, -, hp⟩ := forall₂_hugepages_mem hrel u hu
    exact name_ne_rps_of_unitOf hp
  have hfilter : (hus.filter fun u => u.Name = "update-rps@.service") = [] := by
    rw [List.filter_eq_nil_iff]
    intro u hu
    simpa using hnone u hu
  unfold IsRPSUnitsOf at hrps
  rw [hcfg, List.filter_append, hfilter, List.nil_append]
  cases hcpu : profile.Spec.CPU with
  | none =>
    simp only [hcpu] at hrps
    subst hrps
    refine ⟨⟨?_, ?_⟩, by simp⟩
    · rintro ⟨u, hu, hname⟩
      rw [List.append_nil] at hu
      exact absurd hname (hnone u hu)
    · rintro ⟨cpu, reserved, hc, -⟩
      cases hc
  | some cpu =>
    cases hres : cpu.Reserved with
    | none =>
      simp only [hcpu, hres] at hrps
      subst hrps
      refine ⟨⟨?_, ?_⟩, by simp⟩
      · rintro ⟨u, hu, hname⟩
        rw [List.append_nil] at hu
        exact absurd hname (hnone u hu)
      · rintro ⟨cpu', reserved, hc, hr⟩
        cases hc
        rw [hres] at hr
        cases hr
    | some reserved =>
      simp only [hcpu, hres] at hrps
      obtain ⟨mask, content, -, -, rfl⟩ := hrps
      refine ⟨⟨fun _ => ⟨cpu, reserved, rfl, hres⟩, fun _ =>
        ⟨{ Contents := some content, Name := "update-rps@.service" }, ?_, rfl⟩⟩, by simp⟩
      simp

/-- Witness for C3 on scenario A of the specification. -/
theorem getIgnitionConfig_rps_unit_iff_reserved_set_witness :
    getIgnitionConfig sampleEnv "/assets" scenarioA = .ok scenarioAConfig ∧
    (((∃ u ∈ scenarioAConfig.Systemd.Units, u.Name = "update-rps@.service") ↔
      ∃ cpu reserved, scenarioA.Spec.CPU = some cpu ∧ cpu.Reserved = some reserved) ∧
    (scenarioAConfig.Systemd.Units.filter
      fun u => u.Name = "update-rps@.service").length ≤ 1) :=
  ⟨rfl, getIgnitionConfig_rps_unit_iff_reserved_set sampleEnv "/assets" scenarioA
    scenarioAConfig rfl⟩

/-- C3 as stated fails: with `Reserved` set to the empty CPU list the compile
succeeds and emits the "update-rps@.service" unit although the reserved-CPU
set is empty. -/
theorem emptyReserved_has_rps_unit :
    getIgnitionConfig sampleEnv "/assets" emptyReservedProfile = .ok emptyReservedConfig ∧
    reservedCPUSet emptyReservedProfile = [] ∧
    emptyReservedConfig.Systemd.Units.map (fun u => u.Name) = ["update-rps@.service"] ∧
    ¬ ((∃ u ∈ emptyReservedConfig.Systemd.Units, u.Name = "update-rps@.service") ↔
        reservedCPUSet emptyReservedProfile ≠ []) := by
  refine ⟨rfl, rfl, rfl, ?_⟩
  intro hiff
  have hu : ∃ u ∈ emptyReservedConfig.Systemd.Units, u.Name = "update-rps@.service" :=
    ⟨{ Contents := some
        "Unit:Description=Sets network devices RPS mask\nService:Type=oneshot\nService:ExecStart=/usr/local/bin/set-rps-mask.sh %i 00000000\n",
       Name := "update-rps@.service" }, by decide, rfl⟩
  exact hiff.1 hu rfl

/-! ### C4: the RPS mask of the hook snippet -/

/-- C4 (amended): whenever `GetOCIHooksConfigContent` succeeds, the result is
the hook template executed with a single argument `RPSMask`; the mask is the
literal "0" when `Spec.CPU` or its `Reserved` field is unset, and whenever
`Reserved` is set (also to a list denoting the empty set) it is the codec's
mask for that list. -/
theorem GetOCIHooksConfigContent_mask (env : Env) (configFile : String)
    (profile : PerformanceProfileInfo) (out : String)
    (h : GetOCIHooksConfigContent env configFile profile = .ok out) :
    ∃ content mask, env.ReadFile configFile = .ok content ∧
      env.Execute content [("RPSMask", mask)] = .ok out ∧
      (profile.Spec.CPU = none → mask = "0") ∧
      (∀ cpu, profile.Spec.CPU = some cpu → cpu.Reserved = none → mask = "0") ∧
      (∀ cpu reserved, profile.Spec.CPU = some cpu → cpu.Reserved = some reserved →
        env.CPUListToMaskList reserved = .ok mask) := by
  unfold GetOCIHooksConfigContent at h
  simp only [bind_eq_ok] at h
  obtain ⟨content, hcontent, mask, hmask, hexec⟩ := h
  refine ⟨content, mask, hcontent, hexec, ?_, ?_, ?_⟩
  · intro hcpu
    simp only [hcpu, pure, Except.pure, Except.ok.injEq] at hmask
    exact hmask.symm
  · intro cpu hcpu hres
    simp only [hcpu, hres, pure, Except.pure, Except.ok.injEq] at hmask
    exact hmask.symm
  · intro cpu reserved hcpu hres
    simpa only [hcpu, hres] using hmask

/-- Witness for C4 on scenario A: Reserved "0-1" gives the mask of CPUs 0 and 1. -/
theorem GetOCIHooksConfigContent_mask_witness :
    GetOCIHooksConfigContent sampleEnv "hooks.json" scenarioA =
      .ok "<hooks.json> RPSMask=00000003" ∧
    ∃ content mask, sampleEnv.ReadFile "hooks.json" = .ok content ∧
      sampleEnv.Execute content [("RPSMask", mask)] = .ok "<hooks.json> RPSMask=00000003" ∧
      (scenarioA.Spec.CPU = none → mask = "0") ∧
      (∀ cpu, scenarioA.Spec.CPU = some cpu → cpu.Reserved = none → mask = "0") ∧
      (∀ cpu reserved, scenarioA.Spec.CPU = some cpu → cpu.Reserved = some reserved →
        sampleEnv.CPUListToMaskList reserved = .ok mask) :=
  ⟨rfl, GetOCIHooksConfigContent_mask sampleEnv "hooks.json" scenarioA _ rfl⟩

/-- C4 as stated fails: with `Reserved` set to the empty CPU list the
reserved-CPU set is empty, yet the hook template is executed with the codec's
mask "00000000" and not with the literal "0". -/
theorem emptyReserved_mask_not_literal_zero :
    reservedCPUSet emptyReservedProfile = [] ∧
    sampleEnv.CPUListToMaskList "" = .ok "00000000" ∧
    GetOCIHooksConfigContent sampleEnv "hooks.json" emptyReservedProfile =
      sampleEnv.Execute "<hooks.json>" [("RPSMask", "00000000")] ∧
    GetOCIHooksConfigContent sampleEnv "hooks.json" emptyReservedProfile ≠
      sampleEnv.Execute "<hooks.json>" [("RPSMask", "0")] := by
  refine ⟨rfl, rfl, rfl, by decide⟩

/-! ### C5: the kernel type -/

/-- C5: whenever `New` succeeds, `KernelType` is "realtime" if and only if
`Spec.RealTimeKernel` is set, its `Enabled` field is set and `Enabled` is true;
in every other case it is "default". -/
theorem New_kernelType (env : Env) (assetsDir : String) (profile : PerformanceProfileInfo)
    (mc : MachineConfig) (h : New env assetsDir profile = .ok mc) :
    (mc.KernelType = "realtime" ↔
      ∃ rt, profile.Spec.RealTimeKernel = some rt ∧ rt.Enabled = some true) ∧
    (profile.Spec.RealTimeKernel = none → mc.KernelType = "default") ∧
    (∀ rt, profile.Spec.RealTimeKernel = some rt → rt.Enabled = none →
      mc.KernelType = "default") ∧
    (∀ rt, profile.Spec.RealTimeKernel = some rt → rt.Enabled = some false →
      mc.KernelType = "default") := by
  unfold New at h
  simp only [bind_eq_ok, pure, Except.pure, Except.ok.injEq] at h
  obtain ⟨cfg, -, raw, -, rfl⟩ := h
  cases hrt : profile.Spec.RealTimeKernel with
  | none => simp [MCKernelRT, MCKernelDefault]
  | some rt =>
    cases hen : rt.Enabled with
    | none => simp [hen, MCKernelRT, MCKernelDefault]
    | some enabled => cases enabled <;> simp [hen, MCKernelRT, MCKernelDefault]

/-- Witness for C5: scenario A with the real-time kernel enabled. -/
theorem New_kernelType_witness :
    New sampleEnv "/assets" realtimeProfile = .ok realtimeMachineConfig ∧
    realtimeMachineConfig.KernelType = "realtime" ∧
    ((realtimeMachineConfig.KernelType = "realtime" ↔
        ∃ rt, realtimeProfile.Spec.RealTimeKernel = some rt ∧ rt.Enabled = some true) ∧
      (realtimeProfile.Spec.RealTimeKernel = none →
        realtimeMachineConfig.KernelType = "default") ∧
      (∀ rt, realtimeProfile.Spec.RealTimeKernel = some rt → rt.Enabled = none →
        realtimeMachineConfig.KernelType = "default") ∧
      (∀ rt, realtimeProfile.Spec.RealTimeKernel = some rt → rt.Enabled = some false →
        realtimeMachineConfig.KernelType = "default")) :=
  ⟨rfl, rfl, New_kernelType sampleEnv "/assets" realtimeProfile realtimeMachineConfig rfl⟩

/-! ### C6 and C7: the hugepages-allocation units -/

/-- C6: whenever `getIgnitionConfig` succeeds, the hugepages-allocation units of
the result are as many as the page entries whose NUMA node is set and are, in
the order of those entries, the units of those entries; page entries without a
NUMA node produce no unit. -/
theorem getIgnitionConfig_hugepages_units (env : Env) (assetsDir : String)
    (profile : PerformanceProfileInfo) (cfg : Config)
    (h : getIgnitionConfig env assetsDir profile = .ok cfg) :
    (cfg.Systemd.Units.filter isHugepagesUnit).length = (numaPages profile).length ∧
    List.Forall₂ (IsHugepagesUnitOf env) (numaPages profile)
      (cfg.Systemd.Units.filter isHugepagesUnit) ∧
    ((∀ hugePages, profile.Spec.HugePages = some hugePages →
        ∀ page ∈ hugePages.Pages, page.Node = none) →
      cfg.Systemd.Units.filter isHugepagesUnit = []) := by
  have hrel := getIgnitionConfig_filter_hugepages env assetsDir profile cfg h
  refine ⟨hrel.length_eq.symm, hrel, ?_⟩
  intro hnone
  have hpages : numaPages profile = [] := by
    unfold numaPages
    cases hp : profile.Spec.HugePages with
    | none => rfl
    | some hugePages =>
      simp only [List.filter_eq_nil_iff]
      intro page hpage
      simp [hnone hugePages hp page hpage]
  rw [hpages] at hrel
  exact List.forall₂_nil_left_iff.1 hrel

/-- Witness for C6 on scenario A: one NUMA-bound 1G entry, exactly one
hugepages unit. -/
theorem getIgnitionConfig_hugepages_units_witness :
    getIgnitionConfig sampleEnv "/assets" scenarioA = .ok scenarioAConfig ∧
    (scenarioAConfig.Systemd.Units.filter isHugepagesUnit).length = 1 ∧
    ((scenarioAConfig.Systemd.Units.filter isHugepagesUnit).length =
        (numaPages scenarioA).length ∧
      List.Forall₂ (IsHugepagesUnitOf sampleEnv) (numaPages scenarioA)
        (scenarioAConfig.Systemd.Units.filter isHugepagesUnit) ∧
      ((∀ hugePages, scenarioA.Spec.HugePages = some hugePages →
          ∀ page ∈ hugePages.Pages, page.Node = none) →
        scenarioAConfig.Systemd.Units.filter isHugepagesUnit = [])) :=
  ⟨rfl, rfl, getIgnitionConfig_hugepages_units sampleEnv "/assets" scenarioA scenarioAConfig rfl⟩

theorem name_of_unitOf {env : Env} {page : HugePage} {u : Unit}
    (h : IsHugepagesUnitOf env page u) :
    u.Name = hugepagesUnitName page.Size (page.Node.getD 0) := by
  obtain ⟨node, kb, content, hnode, hkb, -, rfl⟩ := h
  unfold GetHugepagesSizeKilobytes at hkb
  unfold hugepagesUnitName
  rw [hnode]
  split_ifs at hkb with h1 h2
  · cases hkb
    simp [h1]
  · cases hkb
    simp [h1]

/-- C7: whenever `getIgnitionConfig` succeeds, the unit emitted for a NUMA-bound
page entry with size token s and node n is named
"hugepages-allocation-<kB(s)>kB-NUMA<n>.service", a function of s and n alone
(for 1G and node 0: "hugepages-allocation-1048576kB-NUMA0.service"). -/
theorem getIgnitionConfig_hugepages_unit_names (env : Env) (assetsDir : String)
    (profile : PerformanceProfileInfo) (cfg : Config)
    (h : getIgnitionConfig env assetsDir profile = .ok cfg) :
    (cfg.Systemd.Units.filter isHugepagesUnit).map (fun u => u.Name) =
      (numaPages profile).map (fun page => hugepagesUnitName page.Size (page.Node.getD 0)) ∧
    hugepagesUnitName "1G" 0 = "hugepages-allocation-1048576kB-NUMA0.service" ∧
    hugepagesUnitName "2M" 1 = "hugepages-allocation-2048kB-NUMA1.service" := by
  refine ⟨?_, by decide, by decide⟩
  have hrel := getIgnitionConfig_filter_hugepages env assetsDir profile cfg h
  generalize cfg.Systemd.Units.filter isHugepagesUnit = us at hrel
  generalize numaPages profile = pages at hrel
  induction hrel with
  | nil => rfl
  | cons hhead _ ih =>
    simp only [List.map_cons, ih, name_of_unitOf hhead]

/-- Witness for C7 on scenario A. -/
theorem getIgnitionConfig_hugepages_unit_names_witness :
    getIgnitionConfig sampleEnv "/assets" scenarioA = .ok scenarioAConfig ∧
    (scenarioAConfig.Systemd.Units.filter isHugepagesUnit).map (fun u => u.Name) =
      ["hugepages-allocation-1048576kB-NUMA0.service"] ∧
    ((scenarioAConfig.Systemd.Units.filter isHugepagesUnit).map (fun u => u.Name) =
        (numaPages scenarioA).map
          (fun page => hugepagesUnitName page.Size (page.Node.getD 0)) ∧
      hugepagesUnitName "1G" 0 = "hugepages-allocation-1048576kB-NUMA0.service" ∧
      hugepagesUnitName "2M" 1 = "hugepages-allocation-2048kB-NUMA1.service") :=
  ⟨rfl, rfl,
    getIgnitionConfig_hugepages_unit_names sampleEnv "/assets" scenarioA scenarioAConfig rfl⟩

/-! ### C8: the options of a hugepages-allocation unit -/

/-- C8: for every size string s, count c and node n the allocation options are
exactly the nine listed (section, key, value) triples in this order, the three
Environment entries being separate options with the same key. -/
theorem getHugepagesAllocationUnitOptions_eq (s : String) (c n : Int) :
    getHugepagesAllocationUnitOptions s c n =
      [ { Section := "Unit", Name := "Description",
          Value := "Hugepages-" ++ s ++ "kB allocation on the node " ++ toString n },
        { Section := "Unit", Name := "Before", Value := "kubelet.service" },
        { Section := "Service", Name := "Environment",
          Value := "HUGEPAGES_COUNT=" ++ toString c },
        { Section := "Service", Name := "Environment", Value := "HUGEPAGES_SIZE=" ++ s },
        { Section := "Service", Name := "Environment", Value := "NUMA_NODE=" ++ toString n },
        { Section := "Service", Name := "Type", Value := "oneshot" },
        { Section := "Service", Name := "RemainAfterExit", Value := "true" },
        { Section := "Service", Name := "ExecStart",
          Value := "/usr/local/bin/hugepages-allocation.sh" },
        { Section := "Install", Name := "WantedBy", Value := "multi-user.target" } ] ∧
    (getHugepagesAllocationUnitOptions s c n).length = 9 ∧
    ((getHugepagesAllocationUnitOptions s c n).filter
      fun o => o.Name = "Environment").map (fun o => o.Value) =
      ["HUGEPAGES_COUNT=" ++ toString c, "HUGEPAGES_SIZE=" ++ s, "NUMA_NODE=" ++ toString n] := by
  refine ⟨rfl, rfl, rfl⟩

/-! ### C2: the reconcile gate of `updateStatus` -/

theorem forall₂_exists_right {α β : Type} {R : α → β → Prop} {l₁ : List α} {l₂ : List β}
    (h : List.Forall₂ R l₁ l₂) : ∀ a ∈ l₁, ∃ b ∈ l₂, R a b := by
  induction h with
  | nil => intro a ha; cases ha
  | cons hhead _ ih =>
    intro a ha
    rcases List.mem_cons.1 ha with rfl | ha
    · exact ⟨_, List.mem_cons_self _ _, hhead⟩
    · obtain ⟨b, hb, hrel⟩ := ih a ha
      exact ⟨b, List.mem_cons_of_mem _ hb, hrel⟩

theorem FindStatusCondition_eq_none (stored : List Condition) (t : String) :
    FindStatusCondition stored t = none ↔ ∀ o ∈ stored, o.Type_ ≠ t := by
  induction stored with
  | nil => simp [FindStatusCondition]
  | cons c rest ih =>
    unfold FindStatusCondition
    by_cases hc : c.Type_ = t
    · simp [hc]
    · simp [hc, ih]

theorem FindStatusCondition_eq_some (stored : List Condition) (t : String) (o : Condition)
    (h : FindStatusCondition stored t = some o) : o ∈ stored ∧ o.Type_ = t := by
  induction stored with
  | nil => simp [FindStatusCondition] at h
  | cons c rest ih =>
    unfold FindStatusCondition at h
    by_cases hc : c.Type_ = t
    · simp only [hc, if_true, Option.some.injEq] at h
      subst h
      exact ⟨List.mem_cons_self _ _, hc⟩
    · simp only [hc, if_false] at h
      exact ⟨List.mem_cons_of_mem _ (ih h).1, (ih h).2⟩

/-- The loop of `updateStatus` reports a modification exactly when some new
condition has no stored condition of its type or differs from the one found. -/
theorem conditionsModified_iff (stored new : List Condition) :
    conditionsModified stored new = true ↔
      ∃ c ∈ new, (∀ o ∈ stored, o.Type_ ≠ c.Type_) ∨
        ∃ o, FindStatusCondition stored c.Type_ = some o ∧
          (o.Status ≠ c.Status ∨ o.Reason ≠ c.Reason ∨ o.Message ≠ c.Message) := by
  induction new with
  | nil => simp [conditionsModified]
  | cons c rest ih =>
    unfold conditionsModified
    cases hfind : FindStatusCondition stored c.Type_ with
    | none =>
      simp only [true_iff]
      exact ⟨c, List.mem_cons_self _ _, Or.inl ((FindStatusCondition_eq_none _ _).1 hfind)⟩
    | some o =>
      have hmem := FindStatusCondition_eq_some _ _ _ hfind
      by_cases hdiff : o.Status ≠ c.Status ∨ o.Reason ≠ c.Reason ∨ o.Message ≠ c.Message
      · simp only [hdiff, if_true, true_iff]
        exact ⟨c, List.mem_cons_self _ _, Or.inr ⟨o, hfind, hdiff⟩⟩
      · simp only [hdiff, if_false, ih, List.mem_cons, exists_eq_or_imp]
        constructor
        · intro h; exact Or.inr h
        · rintro (h | h)
          · rcases h with h | ⟨o', ho', hd⟩
            · exact absurd hmem.2 (h o hmem.1)
            · rw [hfind] at ho'
              cases ho'
              exact absurd hd hdiff
          · exact h

theorem FindStatusCondition_congr {stored stored' : List Condition}
    (h : List.Forall₂ SameUpToTimestamps stored stored') (t : String) :
    (FindStatusCondition stored t = none ∧ FindStatusCondition stored' t = none) ∨
    ∃ o o', FindStatusCondition stored t = some o ∧ FindStatusCondition stored' t = some o' ∧
      SameUpToTimestamps o o' := by
  induction h with
  | nil => left; simp [FindStatusCondition]
  | @cons a b l l' hab _ ih =>
    unfold FindStatusCondition
    by_cases ha : a.Type_ = t
    · right
      have hb : b.Type_ = t := by rw [← hab.1]; exact ha
      exact ⟨a, b, by simp [ha], by simp [hb], hab⟩
    · have hb : ¬ b.Type_ = t := by rw [← hab.1]; exact ha
      simpa [ha, hb] using ih

/-- Timestamps do not enter the loop of `updateStatus`. -/
theorem conditionsModified_congr {stored stored' new new' : List Condition}
    (hs : List.Forall₂ SameUpToTimestamps stored stored')
    (hn : List.Forall₂ SameUpToTimestamps new new') :
    conditionsModified stored new = conditionsModified stored' new' := by
  induction hn with
  | nil => rfl
  | @cons c c' l l' hc _ ih =>
    unfold conditionsModified
    rw [← hc.1]
    rcases FindStatusCondition_congr hs c.Type_ with ⟨h1, h2⟩ | ⟨o, o', h1, h2, ho⟩
    · rw [h1, h2]
    · rw [h1, h2]
      simp only [ho.2.1, ho.2.2.1, ho.2.2.2, hc.2.1, hc.2.2.1, hc.2.2.2, ih]

theorem conditionsModified_self {stored : List Condition}
    (hnodup : (stored.map fun c => c.Type_).Nodup) :
    ∀ new : List Condition, (∀ c ∈ new, ∃ o ∈ stored, SameUpToTimestamps c o) →
      conditionsModified stored new = false := by
  intro new hnew
  cases hm : conditionsModified stored new with
  | false => rfl
  | true =>
    exfalso
    obtain ⟨c, hc, h⟩ := (conditionsModified_iff stored new).1 hm
    obtain ⟨o, ho, hsame⟩ := hnew c hc
    rcases h with h | ⟨o', hfind, hdiff⟩
    · exact h o ho hsame.1.symm
    · have hmem := FindStatusCondition_eq_some _ _ _ hfind
      have heq : o' = o :=
        List.inj_on_of_nodup_map hnodup hmem.1 ho (by rw [hmem.2, hsame.1])
      subst heq
      rcases hdiff with hd | hd | hd
      · exact hd hsame.2.1.symm
      · exact hd hsame.2.2.1.symm
      · exact hd hsame.2.2.2.symm

theorem updateStatus_written_iff (env : Env) (r : Reconciler) (profile : PerformanceProfileInfo)
    (conditions : List Condition) :
    (updateStatus env r profile (some conditions)).written ≠ none ↔
      (conditionsModified profile.Status.Conditions conditions = true ∨
        profile.Status.Tuned = none ∨ profile.Status.RuntimeClass = none) := by
  unfold updateStatus
  cases ht : profile.Status.Tuned <;> cases hr : profile.Status.RuntimeClass <;>
    cases hm : conditionsModified profile.Status.Conditions conditions <;> simp [ht, hr, hm]

/-- C2: for a non-nil new condition set `updateStatus` writes the status if and
only if (a) some new condition has no stored condition of its type or differs
in status, reason or message from the stored condition of its type, or (b) the
stored tuned reference or runtime-class reference is unset; conditions that
differ only in timestamps give the same decision; and when the stored status
holds at most one condition per type (the data model has exactly one), a new
set that differs from the stored one only in timestamps causes no write once
both references are set. -/
theorem updateStatus_write_iff (env : Env) (r : Reconciler) (profile : PerformanceProfileInfo)
    (conditions : List Condition) :
    ((updateStatus env r profile (some conditions)).written ≠ none ↔
      ((∃ c ∈ conditions, (∀ o ∈ profile.Status.Conditions, o.Type_ ≠ c.Type_) ∨
          ∃ o, FindStatusCondition profile.Status.Conditions c.Type_ = some o ∧
            (o.Status ≠ c.Status ∨ o.Reason ≠ c.Reason ∨ o.Message ≠ c.Message)) ∨
        profile.Status.Tuned = none ∨ profile.Status.RuntimeClass = none)) ∧
    (∀ (profile' : PerformanceProfileInfo) (conditions' : List Condition),
      List.Forall₂ SameUpToTimestamps profile.Status.Conditions profile'.Status.Conditions →
      List.Forall₂ SameUpToTimestamps conditions conditions' →
      profile'.Status.Tuned = profile.Status.Tuned →
      profile'.Status.RuntimeClass = profile.Status.RuntimeClass →
      ((updateStatus env r profile (some conditions)).written ≠ none ↔
        (updateStatus env r profile' (some conditions')).written ≠ none)) ∧
    ((profile.Status.Conditions.map fun c => c.Type_).Nodup →
      List.Forall₂ SameUpToTimestamps conditions profile.Status.Conditions →
      profile.Status.Tuned ≠ none → profile.Status.RuntimeClass ≠ none →
      updateStatus env r profile (some conditions) = { written := none, err := none }) := by
  refine ⟨?_, ?_, ?_⟩
  · rw [updateStatus_written_iff, conditionsModified_iff]
  · intro profile' conditions' hs hn ht hr
    rw [updateStatus_written_iff, updateStatus_written_iff, conditionsModified_congr hs hn,
      ht, hr]
  · intro hnodup hsame ht hr
    have hnew : ∀ c ∈ conditions, ∃ o ∈ profile.Status.Conditions, SameUpToTimestamps c o := by
      intro c hc
      exact forall₂_exists_right hsame c hc
    have hm := conditionsModified_self hnodup conditions hnew
    obtain ⟨t, ht'⟩ := Option.ne_none_iff_exists'.1 ht
    obtain ⟨rc, hr'⟩ := Option.ne_none_iff_exists'.1 hr
    unfold updateStatus
    simp [ht', hr', hm]

/-- Witness for C2: the stored status of `storedProfile` against freshly stamped
available conditions (no write) and against degraded conditions (write). -/
theorem updateStatus_write_iff_witness :
    (storedProfile.Status.Conditions.map fun c => c.Type_).Nodup ∧
    List.Forall₂ SameUpToTimestamps (getAvailableConditions (sampleReconciler []))
      storedProfile.Status.Conditions ∧
    storedProfile.Status.Tuned ≠ none ∧ storedProfile.Status.RuntimeClass ≠ none ∧
    updateStatus sampleEnv (sampleReconciler []) storedProfile
      (some (getAvailableConditions (sampleReconciler []))) = { written := none, err := none } ∧
    (updateStatus sampleEnv (sampleReconciler []) storedProfile
      (some (getDegradedConditions (sampleReconciler []) "MCPDegraded" "m"))).written ≠ none :=
  ⟨by decide,
   .cons ⟨rfl, rfl, rfl, rfl⟩ (.cons ⟨rfl, rfl, rfl, rfl⟩ (.cons ⟨rfl, rfl, rfl, rfl⟩
     (.cons ⟨rfl, rfl, rfl, rfl⟩ .nil))),
   by decide, by decide,
   (updateStatus_write_iff sampleEnv (sampleReconciler []) storedProfile
      (getAvailableConditions (sampleReconciler []))).2.2 (by decide)
      (.cons ⟨rfl, rfl, rfl, rfl⟩ (.cons ⟨rfl, rfl, rfl, rfl⟩ (.cons ⟨rfl, rfl, rfl, rfl⟩
        (.cons ⟨rfl, rfl, rfl, rfl⟩ .nil)))) (by decide) (by decide),
   by decide⟩

/-! ### C9: duplicate pool entries -/

theorem lookup_eq_none_iff_not_mem (items : List (String × MachineConfigPool)) (name : String) :
    items.lookup name = none ↔ name ∉ items.map Prod.fst := by
  induction items with
  | nil => simp
  | cons kv rest ih =>
    obtain ⟨k, v⟩ := kv
    by_cases hk : name = k
    · subst hk
      simp [List.lookup]
    · have hk' : (name == k) = false := by simpa using hk
      simp [List.lookup, hk', ih, hk]

theorem foldl_removeMCPDuplicateEntriesStep (mcps : List MachineConfigPool) :
    ∀ st : List (String × MachineConfigPool) × List MachineConfigPool,
      (mcps.foldl removeMCPDuplicateEntriesStep st).2 =
        st.2 ++ keepUnseen (st.1.map Prod.fst) mcps := by
  induction mcps with
  | nil => intro st; simp [keepUnseen]
  | cons mcp rest ih =>
    intro st
    rw [List.foldl_cons, ih]
    unfold removeMCPDuplicateEntriesStep
    cases hl : st.1.lookup mcp.Name with
    | none =>
      have hmem := (lookup_eq_none_iff_not_mem _ _).1 hl
      simp [keepUnseen, hmem]
    | some v =>
      have hmem : mcp.Name ∈ st.1.map Prod.fst := by
        by_contra hcon
        rw [(lookup_eq_none_iff_not_mem _ _).2 hcon] at hl
        cases hl
      simp [keepUnseen, hmem]

theorem removeMCPDuplicateEntries_eq (mcps : List MachineConfigPool) :
    removeMCPDuplicateEntries mcps = keepUnseen [] mcps := by
  unfold removeMCPDuplicateEntries
  rw [foldl_removeMCPDuplicateEntriesStep]
  simp

theorem keepUnseen_mem (mcps : List MachineConfigPool) :
    ∀ (seen : List String) (m : MachineConfigPool), m ∈ keepUnseen seen mcps →
      m.Name ∉ seen ∧ m ∈ mcps := by
  induction mcps with
  | nil => intro seen m hm; simp [keepUnseen] at hm
  | cons mcp rest ih =>
    intro seen m hm
    unfold keepUnseen at hm
    by_cases hs : mcp.Name ∈ seen
    · simp only [hs, if_true] at hm
      exact ⟨(ih seen m hm).1, List.mem_cons_of_mem _ (ih seen m hm).2⟩
    · simp only [hs, if_false, List.mem_cons] at hm
      rcases hm with rfl | hm
      · exact ⟨hs, List.mem_cons_self _ _⟩
      · have := ih _ m hm
        exact ⟨fun h => this.1 (List.mem_cons_of_mem _ h), List.mem_cons_of_mem _ this.2⟩

theorem keepUnseen_nodup (mcps : List MachineConfigPool) :
    ∀ seen : List String, ((keepUnseen seen mcps).map fun m => m.Name).Nodup := by
  induction mcps with
  | nil => intro seen; simp [keepUnseen]
  | cons mcp rest ih =>
    intro seen
    unfold keepUnseen
    by_cases hs : mcp.Name ∈ seen
    · simpa [hs] using ih seen
    · simp only [hs, if_false, List.map_cons, List.nodup_cons]
      refine ⟨?_, ih _⟩
      intro hmem
      obtain ⟨m, hm, hname⟩ := List.mem_map.1 hmem
      exact (keepUnseen_mem rest _ m hm).1 (by simp [hname])

theorem keepUnseen_sublist (mcps : List MachineConfigPool) :
    ∀ seen : List String, (keepUnseen seen mcps).Sublist mcps := by
  induction mcps with
  | nil => intro seen; simp [keepUnseen]
  | cons mcp rest ih =>
    intro seen
    unfold keepUnseen
    by_cases hs : mcp.Name ∈ seen
    · simpa [hs] using (ih seen).cons mcp
    · simpa [hs] using (ih (mcp.Name :: seen)).cons₂ mcp

theorem keepUnseen_first (mcps : List MachineConfigPool) :
    ∀ (seen : List String) (m : MachineConfigPool), m ∈ keepUnseen seen mcps →
      mcps.find? (fun x => x.Name = m.Name) = some m := by
  induction mcps with
  | nil => intro seen m hm; simp [keepUnseen] at hm
  | cons mcp rest ih =>
    intro seen m hm
    unfold keepUnseen at hm
    by_cases hs : mcp.Name ∈ seen
    · simp only [hs, if_true] at hm
      have hne : mcp.Name ≠ m.Name := by
        intro heq
        exact (keepUnseen_mem rest seen m hm).1 (heq ▸ hs)
      simp [List.find?, hne, ih seen m hm]
    · simp only [hs, if_false, List.mem_cons] at hm
      rcases hm with rfl | hm
      · simp [List.find?]
      · have hne : mcp.Name ≠ m.Name := by
          intro heq
          exact (keepUnseen_mem rest _ m hm).1 (by simp [heq])
        simp [List.find?, hne, ih _ m hm]

theorem keepUnseen_covers (mcps : List MachineConfigPool) :
    ∀ (seen : List String) (m : MachineConfigPool), m ∈ mcps → m.Name ∉ seen →
      ∃ k ∈ keepUnseen seen mcps, k.Name = m.Name := by
  induction mcps with
  | nil => intro seen m hm; cases hm
  | cons mcp rest ih =>
    intro seen m hm hseen
    unfold keepUnseen
    by_cases hs : mcp.Name ∈ seen
    · simp only [hs, if_true]
      rcases List.mem_cons.1 hm with rfl | hm
      · exact absurd hs hseen
      · exact ih seen m hm hseen
    · simp only [hs, if_false, List.mem_cons, exists_eq_or_imp]
      by_cases hname : mcp.Name = m.Name
      · exact Or.inl hname
      · right
        rcases List.mem_cons.1 hm with rfl | hm
        · exact absurd rfl hname
        · refine ih _ m hm ?_
          simp only [List.mem_cons, not_or]
          exact ⟨fun h => hname h.symm, hseen⟩

theorem keepUnseen_skip (l₁ : List MachineConfigPool) :
    ∀ (seen : List String) (q : MachineConfigPool) (l₂ : List MachineConfigPool),
      (q.Name ∈ seen ∨ ∃ p ∈ l₁, p.Name = q.Name) →
      keepUnseen seen (l₁ ++ q :: l₂) = keepUnseen seen (l₁ ++ l₂) := by
  induction l₁ with
  | nil =>
    intro seen q l₂ h
    rcases h with h | ⟨p, hp, -⟩
    · simp [keepUnseen, h]
    · cases hp
  | cons mcp rest ih =>
    intro seen q l₂ h
    simp only [List.cons_append]
    unfold keepUnseen
    by_cases hs : mcp.Name ∈ seen
    · simp only [hs, if_true]
      apply ih
      rcases h with h | ⟨p, hp, hname⟩
      · exact Or.inl h
      · rcases List.mem_cons.1 hp with rfl | hp
        · exact Or.inl (hname ▸ hs)
        · exact Or.inr ⟨p, hp, hname⟩
    · simp only [hs, if_false, List.cons.injEq, true_and]
      apply ih
      rcases h with h | ⟨p, hp, hname⟩
      · exact Or.inl (List.mem_cons_of_mem _ h)
      · rcases List.mem_cons.1 hp with rfl | hp
        · exact Or.inl (by simp [hname])
        · exact Or.inr ⟨p, hp, hname⟩

/-- C9: `removeMCPDuplicateEntries` returns pools with pairwise distinct names,
in the original order, namely exactly the first entry of every name that occurs
in the input; hence a repeated entry of a name already listed changes nothing
in what `getMCPConditionsByProfile` evaluates and returns. -/
theorem removeMCPDuplicateEntries_first_entries (mcps : List MachineConfigPool) :
    ((removeMCPDuplicateEntries mcps).map fun m => m.Name).Nodup ∧
    (removeMCPDuplicateEntries mcps).Sublist mcps ∧
    (∀ m ∈ removeMCPDuplicateEntries mcps, mcps.find? (fun x => x.Name = m.Name) = some m) ∧
    (∀ m ∈ mcps, ∃ k ∈ removeMCPDuplicateEntries mcps, k.Name = m.Name) ∧
    (∀ (l₁ l₂ : List MachineConfigPool) (q : MachineConfigPool),
      mcps = l₁ ++ q :: l₂ → (∃ p ∈ l₁, p.Name = q.Name) →
      removeMCPDuplicateEntries mcps = removeMCPDuplicateEntries (l₁ ++ l₂) ∧
      ∀ (env : Env) (r : Reconciler) (profile : PerformanceProfileInfo),
        getMCPConditionsByProfile env { r with ListMachineConfigPools := .ok mcps } profile =
        getMCPConditionsByProfile env
          { r with ListMachineConfigPools := .ok (l₁ ++ l₂) } profile) := by
  simp only [removeMCPDuplicateEntries_eq]
  refine ⟨keepUnseen_nodup mcps [], keepUnseen_sublist mcps [],
    fun m hm => keepUnseen_first mcps [] m hm,
    fun m hm => keepUnseen_covers mcps [] m hm (by simp), ?_⟩
  intro l₁ l₂ q hmcps hdup
  subst hmcps
  have hskip := keepUnseen_skip l₁ [] q l₂ (Or.inr hdup)
  refine ⟨hskip, ?_⟩
  intro env r profile
  simp only [getMCPConditionsByProfile, bind, Except.bind, removeMCPDuplicateEntries_eq, hskip]
  rfl

/-- Witness for C9: `degradedPool` listed twice under one name. -/
theorem removeMCPDuplicateEntries_first_entries_witness :
    (∃ p ∈ [degradedPool, masterPool], p.Name = degradedPoolAgain.Name) ∧
    removeMCPDuplicateEntries [degradedPool, masterPool, degradedPoolAgain] =
      [degradedPool, masterPool] ∧
    (removeMCPDuplicateEntries ([degradedPool, masterPool] ++ degradedPoolAgain :: []) =
        removeMCPDuplicateEntries ([degradedPool, masterPool] ++ []) ∧
      ∀ (env : Env) (r : Reconciler) (profile : PerformanceProfileInfo),
        getMCPConditionsByProfile env
          { r with ListMachineConfigPools := .ok (
              [degradedPool, masterPool] ++ degradedPoolAgain :: []) } profile =
        getMCPConditionsByProfile env
          { r with ListMachineConfigPools := .ok ([degradedPool, masterPool] ++ []) } profile) :=
  ⟨⟨degradedPool, by simp, rfl⟩, by decide,
   (removeMCPDuplicateEntries_first_entries
      ([degradedPool, masterPool] ++ degradedPoolAgain :: [])).2.2.2.2
      [degradedPool, masterPool] [] degradedPoolAgain rfl ⟨degradedPool, by simp, rfl⟩⟩

/-! ### C10: the machine config pool signal -/

theorem foldl_append_string (l : List String) :
    ∀ acc : String, l.foldl (fun r s => r ++ s) acc = acc ++ l.foldl (fun r s => r ++ s) "" := by
  induction l with
  | nil => intro acc; simp
  | cons a rest ih =>
    intro acc
    simp only [List.foldl_cons]
    rw [ih (acc ++ a), ih ("" ++ a), String.empty_append, String.append_assoc]

theorem string_join_cons (a : String) (l : List String) :
    String.join (a :: l) = a ++ String.join l := by
  unfold String.join
  rw [List.foldl_cons, foldl_append_string, String.empty_append]

theorem string_join_nil : String.join [] = "" := rfl

theorem writeMCPCondition_eq (mcp : MachineConfigPool) (message : String)
    (condition : MachineConfigPoolCondition) :
    writeMCPCondition mcp message condition =
      message ++ (if isDegradedMCPCondition condition = true then
        degradedMCPConditionText mcp.Name condition else "") := by
  unfold writeMCPCondition isDegradedMCPCondition degradedMCPConditionText
  simp only [MachineConfigPoolNodeDegraded, MachineConfigPoolRenderDegraded, ConditionTrue]
  by_cases hd : (condition.Type_ = "NodeDegraded" ∨ condition.Type_ = "RenderDegraded") ∧
      condition.Status = "True"
  · by_cases hr : condition.Reason = "" <;> by_cases hm : condition.Message = "" <;>
      simp [hd, hr, hm, String.append_assoc]
  · simp [hd]

theorem foldl_writeMCPCondition (mcp : MachineConfigPool)
    (conditions : List MachineConfigPoolCondition) :
    ∀ message : String, conditions.foldl (writeMCPCondition mcp) message =
      message ++ String.join ((conditions.filter isDegradedMCPCondition).map
        (degradedMCPConditionText mcp.Name)) := by
  induction conditions with
  | nil => intro message; simp [string_join_nil]
  | cons c rest ih =>
    intro message
    rw [List.foldl_cons, ih, writeMCPCondition_eq]
    by_cases hd : isDegradedMCPCondition c = true
    · simp [hd, List.filter, string_join_cons, String.append_assoc]
    · simp [hd, List.filter]

theorem foldlM_writeMCP_ok (r : Reconciler) (labels : StringMap)
    (pools : List MachineConfigPool) :
    ∀ message : String,
      (∀ mcp ∈ pools, ∃ s, r.LabelSelectorAsSelector mcp.Spec.MachineConfigSelector = .ok s) →
      pools.foldlM (writeMCP r labels) message =
        .ok (message ++ accumulatedMCPMessage r labels pools) := by
  induction pools with
  | nil => intro message _; simp [accumulatedMCPMessage, string_join_nil, pure, Except.pure]
  | cons mcp rest ih =>
    intro message hconv
    obtain ⟨s, hs⟩ := hconv mcp (List.mem_cons_self _ _)
    have hrest := fun msg => ih msg (fun m hm => hconv m (List.mem_cons_of_mem _ hm))
    rw [List.foldlM_cons]
    by_cases hmatch : s.Matches labels = true
    · have hpm : poolMatches r labels mcp = true := by simp [poolMatches, hs, hmatch]
      have hstep : writeMCP r labels message mcp =
          .ok (mcp.Status.Conditions.foldl (writeMCPCondition mcp) message) := by
        simp [writeMCP, hs, hmatch, bind, Except.bind, pure, Except.pure]
      rw [hstep]
      show List.foldlM (writeMCP r labels) _ rest = _
      rw [hrest, foldl_writeMCPCondition]
      simp [accumulatedMCPMessage, List.filter, hpm, string_join_cons, String.append_assoc]
    · have hpm : poolMatches r labels mcp = false := by simp [poolMatches, hs, hmatch]
      have hstep : writeMCP r labels message mcp = .ok message := by
        simp [writeMCP, hs, hmatch, bind, Except.bind, pure, Except.pure]
      rw [hstep]
      show List.foldlM (writeMCP r labels) _ rest = _
      rw [hrest]
      simp [accumulatedMCPMessage, List.filter, hpm]

theorem foldlM_writeMCP_error (r : Reconciler) (labels : StringMap)
    (pools : List MachineConfigPool) :
    ∀ message : String,
      (∃ mcp ∈ pools, ∃ e, r.LabelSelectorAsSelector mcp.Spec.MachineConfigSelector = .error e) →
      ∃ e, pools.foldlM (writeMCP r labels) message = .error e := by
  induction pools with
  | nil => intro message h; obtain ⟨mcp, hm, -⟩ := h; cases hm
  | cons mcp rest ih =>
    intro message h
    rw [List.foldlM_cons]
    cases hs : r.LabelSelectorAsSelector mcp.Spec.MachineConfigSelector with
    | error e => exact ⟨e, by simp [writeMCP, hs, bind, Except.bind]⟩
    | ok s =>
      obtain ⟨m, hm, e, he⟩ := h
      have hrest : ∃ m ∈ rest, ∃ e,
          r.LabelSelectorAsSelector m.Spec.MachineConfigSelector = .error e := by
        rcases List.mem_cons.1 hm with rfl | hm
        · rw [hs] at he; cases he
        · exact ⟨m, hm, e, he⟩
      have hstep : ∃ msg, writeMCP r labels message mcp = .ok msg := by
        by_cases hmatch : s.Matches labels = true
        · exact ⟨mcp.Status.Conditions.foldl (writeMCPCondition mcp) message,
            by simp [writeMCP, hs, hmatch, bind, Except.bind, pure, Except.pure]⟩
        · exact ⟨message, by simp [writeMCP, hs, hmatch, bind, Except.bind, pure, Except.pure]⟩
      obtain ⟨msg, hmsg⟩ := hstep
      rw [hmsg]
      exact ih msg hrest

/-- C10 (amended): when the pool list succeeds and the machine-config selector
of every deduplicated pool converts to a selector, `getMCPConditionsByProfile`
returns the degraded condition set (Degraded with status True, reason
"MCPDegraded" and the accumulated text as message) if the text accumulated over
the deduplicated pools whose selector matches the profile's pool-selector
labels, from their True NodeDegraded or RenderDegraded conditions, is
non-empty, and no signal and no error if it is empty; when some selector does
not convert, it returns an error. -/
theorem getMCPConditionsByProfile_spec (env : Env) (r : Reconciler)
    (profile : PerformanceProfileInfo) (mcps : List MachineConfigPool)
    (hlist : r.ListMachineConfigPools = .ok mcps) :
    ((∀ mcp ∈ removeMCPDuplicateEntries mcps,
        ∃ s, r.LabelSelectorAsSelector mcp.Spec.MachineConfigSelector = .ok s) →
      (accumulatedMCPMessage r (GetMachineConfigPoolSelector env profile)
          (removeMCPDuplicateEntries mcps) ≠ "" →
        getMCPConditionsByProfile env r profile =
          .ok (some (getDegradedConditions r "MCPDegraded"
            (accumulatedMCPMessage r (GetMachineConfigPoolSelector env profile)
              (removeMCPDuplicateEntries mcps)))) ∧
        FindStatusCondition (getDegradedConditions r "MCPDegraded"
            (accumulatedMCPMessage r (GetMachineConfigPoolSelector env profile)
              (removeMCPDuplicateEntries mcps))) "Degraded" =
          some { Type_ := "Degraded", Status := "True", Reason := "MCPDegraded",
                 Message := accumulatedMCPMessage r (GetMachineConfigPoolSelector env profile)
                   (removeMCPDuplicateEntries mcps),
                 LastTransitionTime := r.Now, LastHeartbeatTime := r.Now }) ∧
      (accumulatedMCPMessage r (GetMachineConfigPoolSelector env profile)
          (removeMCPDuplicateEntries mcps) = "" →
        getMCPConditionsByProfile env r profile = .ok none)) ∧
    ((∃ mcp ∈ removeMCPDuplicateEntries mcps, ∃ e,
        r.LabelSelectorAsSelector mcp.Spec.MachineConfigSelector = .error e) →
      ∃ e, getMCPConditionsByProfile env r profile = .error e) := by
  refine ⟨fun hconv => ?_, fun herr => ?_⟩
  · have hfold := foldlM_writeMCP_ok r (GetMachineConfigPoolSelector env profile)
      (removeMCPDuplicateEntries mcps) "" hconv
    rw [String.empty_append] at hfold
    refine ⟨fun hne => ⟨?_, ?_⟩, fun hempty => ?_⟩
    · unfold getMCPConditionsByProfile
      simp only [hlist, bind, Except.bind, hfold, hne, if_false, pure, Except.pure,
        conditionReasonMCPDegraded]
    · simp [getDegradedConditions, FindStatusCondition, ConditionAvailable,
        ConditionUpgradeable, ConditionProgressing, ConditionDegraded, ConditionTrue]
    · unfold getMCPConditionsByProfile
      simp only [hlist, bind, Except.bind, hfold, hempty, if_true, pure, Except.pure]
  · obtain ⟨e, he⟩ := foldlM_writeMCP_error r (GetMachineConfigPoolSelector env profile)
      (removeMCPDuplicateEntries mcps) "" herr
    exact ⟨e, by simp only [getMCPConditionsByProfile, hlist, bind, Except.bind, he]⟩

/-- Witness for C10: a degraded matching pool, listed twice, next to a pool
that does not match. -/
theorem getMCPConditionsByProfile_spec_witness :
    (sampleReconciler [degradedPool, masterPool, degradedPoolAgain]).ListMachineConfigPools =
      .ok [degradedPool, masterPool, degradedPoolAgain] ∧
    (∀ mcp ∈ removeMCPDuplicateEntries [degradedPool, masterPool, degradedPoolAgain],
      ∃ s, (sampleReconciler [degradedPool, masterPool, degradedPoolAgain]).LabelSelectorAsSelector
        mcp.Spec.MachineConfigSelector = .ok s) ∧
    accumulatedMCPMessage (sampleReconciler [degradedPool, masterPool, degradedPoolAgain])
        (GetMachineConfigPoolSelector sampleEnv statusProfile)
        (removeMCPDuplicateEntries [degradedPool, masterPool, degradedPoolAgain]) =
      "Machine config pool worker-cnf Degraded Reason: 1 nodes are reporting degraded.\nMachine config pool worker-cnf Degraded Message: Node n1 is reporting: disk full.\n" ∧
    getMCPConditionsByProfile sampleEnv
        (sampleReconciler [degradedPool, masterPool, degradedPoolAgain]) statusProfile =
      .ok (some (getDegradedConditions
        (sampleReconciler [degradedPool, masterPool, degradedPoolAgain]) "MCPDegraded"
        (accumulatedMCPMessage (sampleReconciler [degradedPool, masterPool, degradedPoolAgain])
          (GetMachineConfigPoolSelector sampleEnv statusProfile)
          (removeMCPDuplicateEntries [degradedPool, masterPool, degradedPoolAgain])))) := by
  have hconv : ∀ mcp ∈ removeMCPDuplicateEntries [degradedPool, masterPool, degradedPoolAgain],
      ∃ s, (sampleReconciler [degradedPool, masterPool, degradedPoolAgain]).LabelSelectorAsSelector
        mcp.Spec.MachineConfigSelector = .ok s := by
    intro mcp hm
    have hlist : removeMCPDuplicateEntries [degradedPool, masterPool, degradedPoolAgain] =
        [degradedPool, masterPool] := by decide
    rw [hlist] at hm
    simp only [List.mem_cons, List.mem_singleton, List.not_mem_nil, or_false] at hm
    rcases hm with rfl | rfl
    · exact ⟨_, rfl⟩
    · exact ⟨_, rfl⟩
  exact ⟨rfl, hconv, by decide,
    ((((getMCPConditionsByProfile_spec sampleEnv
      (sampleReconciler [degradedPool, masterPool, degradedPoolAgain]) statusProfile
      [degradedPool, masterPool, degradedPoolAgain] rfl).1 hconv).1 (by decide)).1)⟩

/-- C10 as stated fails: the pool list succeeds and the text accumulated over
the matching pools is non-empty, yet a pool whose selector does not convert
makes `getMCPConditionsByProfile` return the conversion error instead of the
degraded condition set; and with an empty text the result is that error, not
"no signal and no error". -/
theorem brokenSelector_returns_error :
    (sampleReconciler [degradedPool, brokenSelectorPool]).ListMachineConfigPools =
      .ok [degradedPool, brokenSelectorPool] ∧
    accumulatedMCPMessage (sampleReconciler [degradedPool, brokenSelectorPool])
        (GetMachineConfigPoolSelector sampleEnv statusProfile)
        (removeMCPDuplicateEntries [degradedPool, brokenSelectorPool]) ≠ "" ∧
    getMCPConditionsByProfile sampleEnv (sampleReconciler [degradedPool, brokenSelectorPool])
        statusProfile = .error (.invalidSelector "Near") ∧
    accumulatedMCPMessage (sampleReconciler [brokenSelectorPool])
        (GetMachineConfigPoolSelector sampleEnv statusProfile)
        (removeMCPDuplicateEntries [brokenSelectorPool]) = "" ∧
    getMCPConditionsByProfile sampleEnv (sampleReconciler [brokenSelectorPool])
        statusProfile ≠ .ok none := by
  refine ⟨rfl, by decide, by decide, by decide, by decide⟩

/-! ### C11: the latest KubeletConfig condition -/

theorem getElem?_concat_cases {α : Type} (pre : List α) (c c' : α) (j : Nat)
    (h : (pre ++ [c])[j]? = some c') :
    pre[j]? = some c' ∨ (j = pre.length ∧ c' = c) := by
  by_cases hj : j < pre.length
  · left
    rwa [List.getElem?_append_left hj] at h
  · right
    rw [List.getElem?_append_right (Nat.le_of_not_lt hj)] at h
    by_cases h0 : j - pre.length = 0
    · rw [h0] at h
      simp only [List.getElem?_cons_zero, Option.some.injEq] at h
      exact ⟨by omega, h.symm⟩
    · obtain ⟨k, hk⟩ := Nat.exists_eq_succ_of_ne_zero h0
      rw [hk] at h
      simp at h

theorem getElem?_lt_length {α : Type} (l : List α) (i : Nat) (a : α) (h : l[i]? = some a) :
    i < l.length := by
  by_contra hcon
  rw [List.getElem?_eq_none (Nat.le_of_not_lt hcon)] at h
  cases h

theorem LatestInv_step (pre : List KubeletConfigCondition) (c : KubeletConfigCondition)
    (latest : Option (Nat × KubeletConfigCondition)) (h : LatestInv pre latest) :
    LatestInv (pre ++ [c])
      (match latest with
       | none => some (pre.length, c)
       | some l =>
         if l.2.LastTransitionTime < c.LastTransitionTime then some (pre.length, c)
         else some l) := by
  cases latest with
  | none =>
    simp only [LatestInv] at h
    subst h
    refine ⟨by simp, ?_, ?_⟩
    · intro j c' hj
      rcases getElem?_concat_cases [] c c' j hj with h1 | ⟨-, rfl⟩
      · simp at h1
      · exact le_refl _
    · intro j c' hj
      simp at hj
  | some l =>
    obtain ⟨i, lc⟩ := l
    simp only [LatestInv] at h
    obtain ⟨hget, hmax, hfirst⟩ := h
    have hi := getElem?_lt_length _ _ _ hget
    by_cases hlt : lc.LastTransitionTime < c.LastTransitionTime
    · simp only [hlt, if_true]
      refine ⟨by simp, ?_, ?_⟩
      · intro j c' hj
        rcases getElem?_concat_cases pre c c' j hj with h1 | ⟨-, rfl⟩
        · exact le_of_lt (lt_of_le_of_lt (hmax j c' h1) hlt)
        · exact le_refl _
      · intro j c' hjlt hj
        rcases getElem?_concat_cases pre c c' j hj with h1 | ⟨h2, -⟩
        · exact lt_of_le_of_lt (hmax j c' h1) hlt
        · omega
    · simp only [hlt, if_false]
      refine ⟨by rw [List.getElem?_append_left hi]; exact hget, ?_, ?_⟩
      · intro j c' hj
        rcases getElem?_concat_cases pre c c' j hj with h1 | ⟨-, rfl⟩
        · exact hmax j c' h1
        · exact Nat.le_of_not_lt hlt
      · intro j c' hjlt hj
        rcases getElem?_concat_cases pre c c' j hj with h1 | ⟨h2, -⟩
        · exact hfirst j c' hjlt h1
        · omega

theorem getLatestKubeletConfigConditionLoop_inv (rest : List KubeletConfigCondition) :
    ∀ (pre : List KubeletConfigCondition) (latest : Option (Nat × KubeletConfigCondition)),
      LatestInv pre latest →
      LatestInv (pre ++ rest) (getLatestKubeletConfigConditionLoop pre.length rest latest) := by
  induction rest with
  | nil =>
    intro pre latest h
    simpa [getLatestKubeletConfigConditionLoop] using h
  | cons c rest ih =>
    intro pre latest h
    have hstep := LatestInv_step pre c latest h
    have hlen : (pre ++ [c]).length = pre.length + 1 := by simp
    have happ : pre ++ c :: rest = (pre ++ [c]) ++ rest := by simp
    rw [happ]
    cases latest with
    | none =>
      simp only [getLatestKubeletConfigConditionLoop]
      rw [← hlen]
      exact ih _ _ hstep
    | some l =>
      simp only [getLatestKubeletConfigConditionLoop]
      by_cases hlt : l.2.LastTransitionTime < c.LastTransitionTime
      · simp only [hlt, if_true] at hstep ⊢
        rw [← hlen]
        exact ih _ _ hstep
      · simp only [hlt, if_false] at hstep ⊢
        rw [← hlen]
        exact ih _ _ hstep

/-- C11 (amended): for every non-empty list `getLatestKubeletConfigCondition`
returns a condition of the list whose transition time is not earlier than that
of any other condition, and when several conditions share the latest
transition time it returns the one at the earliest list position; for the
empty list it returns nothing. -/
theorem getLatestKubeletConfigCondition_first_latest
    (conditions : List KubeletConfigCondition) :
    (conditions ≠ [] →
      ∃ i c, getLatestKubeletConfigConditionAt conditions = some (i, c) ∧
        getLatestKubeletConfigCondition conditions = some c ∧
        IsFirstLatest conditions i c) ∧
    getLatestKubeletConfigCondition [] = none := by
  refine ⟨fun hne => ?_, rfl⟩
  have hinv := getLatestKubeletConfigConditionLoop_inv conditions [] none rfl
  simp only [List.nil_append, List.length_nil] at hinv
  cases hres : getLatestKubeletConfigConditionLoop 0 conditions none with
  | none =>
    rw [hres] at hinv
    exact absurd hinv hne
  | some l =>
    obtain ⟨i, c⟩ := l
    rw [hres] at hinv
    exact ⟨i, c, hres, by simp [getLatestKubeletConfigCondition,
      getLatestKubeletConfigConditionAt, hres], hinv⟩

/-- Witness for C11: of a Success condition at time 1 and a Failure condition at
time 7 the function returns the Failure condition at position 1. -/
theorem getLatestKubeletConfigCondition_first_latest_witness :
    failedKubeletConfig.Status.Conditions ≠ [] ∧
    getLatestKubeletConfigConditionAt failedKubeletConfig.Status.Conditions =
      some (1, { Type_ := "Failure", Status := "False", LastTransitionTime := 7,
                 Message := "boom" }) ∧
    ∃ i c, getLatestKubeletConfigConditionAt failedKubeletConfig.Status.Conditions =
        some (i, c) ∧
      getLatestKubeletConfigCondition failedKubeletConfig.Status.Conditions = some c ∧
      IsFirstLatest failedKubeletConfig.Status.Conditions i c :=
  ⟨by decide, by decide,
   (getLatestKubeletConfigCondition_first_latest failedKubeletConfig.Status.Conditions).1
     (by decide)⟩

/-- C11 as stated fails: of two conditions that share the latest transition
time the function returns the one at the earlier list position, not the one at
the later position. -/
theorem tied_conditions_return_first :
    tiedKubeletConditions =
      [ { Type_ := "Failure", Status := "False", LastTransitionTime := 5, Message := "boom" },
        { Type_ := "Success", Status := "True", LastTransitionTime := 5, Message := "fine" } ] ∧
    getLatestKubeletConfigConditionAt tiedKubeletConditions =
      some (0, { Type_ := "Failure", Status := "False", LastTransitionTime := 5,
                 Message := "boom" }) ∧
    getLatestKubeletConfigCondition tiedKubeletConditions ≠
      some { Type_ := "Success", Status := "True", LastTransitionTime := 5,
             Message := "fine" } := by
  refine ⟨rfl, by decide, by decide⟩

/-! ### C12 and C13: the KubeletConfig signal -/

theorem FindStatusCondition_degraded (r : Reconciler) (reason message : String) :
    FindStatusCondition (getDegradedConditions r reason message) "Degraded" =
      some { Type_ := "Degraded", Status := "True", Reason := reason, Message := message,
             LastTransitionTime := r.Now, LastHeartbeatTime := r.Now } := by
  simp [getDegradedConditions, FindStatusCondition, ConditionAvailable,
    ConditionUpgradeable, ConditionProgressing, ConditionDegraded, ConditionTrue]

/-- C12 (amended): when the profile's KubeletConfig exists,
`getKubeletConditionsByProfile` returns a degraded condition set if and only if
the condition selected by `getLatestKubeletConfigCondition` is of type Failure,
and in that case the Degraded condition has status True, reason
"KubeletConfig failure" and the message of that latest condition; a Failure
condition that is not the selected one yields no signal. -/
theorem getKubeletConditionsByProfile_spec (env : Env) (r : Reconciler)
    (profile : PerformanceProfileInfo) (kc : KubeletConfig)
    (hkc : r.getKubeletConfig (env.GetComponentName profile.Name env.ComponentNamePrefix) =
      .ok kc) :
    ((∃ cs, getKubeletConditionsByProfile env r profile = .ok (some cs)) ↔
      ∃ latest, getLatestKubeletConfigCondition kc.Status.Conditions = some latest ∧
        latest.Type_ = "Failure") ∧
    (∀ latest, getLatestKubeletConfigCondition kc.Status.Conditions = some latest →
      latest.Type_ = "Failure" →
      getKubeletConditionsByProfile env r profile =
        .ok (some (getDegradedConditions r "KubeletConfig failure" latest.Message)) ∧
      FindStatusCondition (getDegradedConditions r "KubeletConfig failure" latest.Message)
          "Degraded" =
        some { Type_ := "Degraded", Status := "True", Reason := "KubeletConfig failure",
               Message := latest.Message,
               LastTransitionTime := r.Now, LastHeartbeatTime := r.Now }) ∧
    (∀ latest, getLatestKubeletConfigCondition kc.Status.Conditions = some latest →
      latest.Type_ ≠ "Failure" → getKubeletConditionsByProfile env r profile = .ok none) ∧
    (getLatestKubeletConfigCondition kc.Status.Conditions = none →
      getKubeletConditionsByProfile env r profile = .ok none) := by
  unfold getKubeletConditionsByProfile
  simp only [hkc, KubeletConfigFailure, conditionKubeletFailed]
  cases hlatest : getLatestKubeletConfigCondition kc.Status.Conditions with
  | none => simp
  | some latest =>
    by_cases hty : latest.Type_ = "Failure"
    · simp [hty, FindStatusCondition_degraded]
    · simp [hty]

/-- Witness for C12: a KubeletConfig whose latest condition is a Failure. -/
theorem getKubeletConditionsByProfile_spec_witness :
    (kubeletReconciler (.ok failedKubeletConfig)).getKubeletConfig
        (sampleEnv.GetComponentName statusProfile.Name sampleEnv.ComponentNamePrefix) =
      .ok failedKubeletConfig ∧
    getLatestKubeletConfigCondition failedKubeletConfig.Status.Conditions =
      some { Type_ := "Failure", Status := "False", LastTransitionTime := 7,
             Message := "boom" } ∧
    getKubeletConditionsByProfile sampleEnv (kubeletReconciler (.ok failedKubeletConfig))
        statusProfile =
      .ok (some (getDegradedConditions (kubeletReconciler (.ok failedKubeletConfig))
        "KubeletConfig failure" "boom")) ∧
    getKubeletConditionsByProfile sampleEnv (kubeletReconciler (.ok recoveredKubeletConfig))
        statusProfile = .ok none :=
  ⟨rfl, by decide,
   ((getKubeletConditionsByProfile_spec sampleEnv (kubeletReconciler (.ok failedKubeletConfig))
      statusProfile failedKubeletConfig rfl).2.1
      { Type_ := "Failure", Status := "False", LastTransitionTime := 7, Message := "boom" }
      (by decide) rfl).1,
   by decide⟩

/-- C12 as stated fails: for a KubeletConfig whose latest condition is a Failure
the Degraded condition carries the reason "KubeletConfig failure", not
"KubeletConfigFailure". -/
theorem kubelet_failure_reason_text :
    getKubeletConditionsByProfile sampleEnv (kubeletReconciler (.ok failedKubeletConfig))
        statusProfile =
      .ok (some (getDegradedConditions (kubeletReconciler (.ok failedKubeletConfig))
        "KubeletConfig failure" "boom")) ∧
    getKubeletConditionsByProfile sampleEnv (kubeletReconciler (.ok failedKubeletConfig))
        statusProfile ≠
      .ok (some (getDegradedConditions (kubeletReconciler (.ok failedKubeletConfig))
        "KubeletConfigFailure" "boom")) ∧
    conditionKubeletFailed ≠ "KubeletConfigFailure" := by
  refine ⟨by decide, by decide, by decide⟩

/-- C13: when the KubeletConfig lookup fails with a not-found error,
`getKubeletConditionsByProfile` returns no signal and no error; for every other
lookup failure it returns that same error and no condition set. -/
theorem getKubeletConditionsByProfile_lookup_error (env : Env) (r : Reconciler)
    (profile : PerformanceProfileInfo) (err : Error)
    (hkc : r.getKubeletConfig (env.GetComponentName profile.Name env.ComponentNamePrefix) =
      .error err) :
    (IsNotFound err = true → getKubeletConditionsByProfile env r profile = .ok none) ∧
    (IsNotFound err = false → getKubeletConditionsByProfile env r profile = .error err) ∧
    (getKubeletConditionsByProfile env r profile = .ok none ↔ IsNotFound err = true) := by
  unfold getKubeletConditionsByProfile
  simp only [hkc]
  cases hnf : IsNotFound err <;> simp

/-- Witness for C13: an absent KubeletConfig and a failing API request. -/
theorem getKubeletConditionsByProfile_lookup_error_witness :
    (IsNotFound (.notFound "performance-manual") = true ∧
      getKubeletConditionsByProfile sampleEnv
        (kubeletReconciler (.error (.notFound "performance-manual"))) statusProfile =
        .ok none) ∧
    (IsNotFound (.api "connection refused") = false ∧
      getKubeletConditionsByProfile sampleEnv
        (kubeletReconciler (.error (.api "connection refused"))) statusProfile =
        .error (.api "connection refused")) :=
  ⟨⟨rfl, (getKubeletConditionsByProfile_lookup_error sampleEnv
      (kubeletReconciler (.error (.notFound "performance-manual"))) statusProfile
      (.notFound "performance-manual") rfl).1 rfl⟩,
   ⟨rfl, (getKubeletConditionsByProfile_lookup_error sampleEnv
      (kubeletReconciler (.error (.api "connection refused"))) statusProfile
      (.api "connection refused") rfl).2.1 rfl⟩⟩

/-! ### C14 and C20: the Tuned signal -/

theorem tunedConditionStep_isDegraded (st : TunedLoopState) (e : ProfileStatusCondition) :
    (tunedConditionStep st e).isDegraded = true ↔
      st.isDegraded = true ∨ (e.Type_ = "Degraded" ∧ e.Status = "True") := by
  unfold tunedConditionStep
  simp only [TunedDegraded, TunedProfileApplied, ConditionTrue, ConditionFalse]
  split_ifs with h1 h2 h2 <;> simp [h1]

theorem tunedConditionStep_isApplied (st : TunedLoopState) (e : ProfileStatusCondition) :
    (tunedConditionStep st e).isApplied = false ↔
      st.isApplied = false ∨ (e.Type_ = "Applied" ∧ e.Status = "False") := by
  unfold tunedConditionStep
  simp only [TunedDegraded, TunedProfileApplied, ConditionTrue, ConditionFalse]
  split_ifs with h1 h2 h2 <;> simp_all

theorem tunedConditionStep_condition (st : TunedLoopState) (e : ProfileStatusCondition) :
    (tunedConditionStep st e).condition = e := by
  unfold tunedConditionStep
  simp only
  split_ifs <;> rfl

theorem tunedFold_isDegraded (conds : List ProfileStatusCondition) :
    ∀ st : TunedLoopState, (conds.foldl tunedConditionStep st).isDegraded = true ↔
      st.isDegraded = true ∨ ∃ c ∈ conds, c.Type_ = "Degraded" ∧ c.Status = "True" := by
  induction conds with
  | nil => intro st; simp
  | cons e rest ih =>
    intro st
    rw [List.foldl_cons, ih, tunedConditionStep_isDegraded]
    simp only [List.mem_cons, exists_eq_or_imp]
    tauto

theorem tunedFold_isApplied (conds : List ProfileStatusCondition) :
    ∀ st : TunedLoopState, (conds.foldl tunedConditionStep st).isApplied = false ↔
      st.isApplied = false ∨ ∃ c ∈ conds, c.Type_ = "Applied" ∧ c.Status = "False" := by
  induction conds with
  | nil => intro st; simp
  | cons e rest ih =>
    intro st
    rw [List.foldl_cons, ih, tunedConditionStep_isApplied]
    simp only [List.mem_cons, exists_eq_or_imp]
    tauto

/-- After the loop the range variable holds the last condition of the list. -/
theorem tunedFold_condition (conds : List ProfileStatusCondition) :
    ∀ st : TunedLoopState,
      (conds.foldl tunedConditionStep st).condition = conds.getLast?.getD st.condition := by
  induction conds with
  | nil => intro st; simp
  | cons e rest ih =>
    intro st
    rw [List.foldl_cons, ih, tunedConditionStep_condition, List.getLast?_cons]
    rfl

theorem writeTunedProfile_append (message : String) (tunedProfile : TunedProfile) :
    writeTunedProfile message tunedProfile = message ++ writeTunedProfile "" tunedProfile := by
  unfold writeTunedProfile
  simp only
  split_ifs <;> simp [String.append_assoc]

/-- The text a Tuned profile adds is built from the last condition of its list. -/
theorem writeTunedProfile_of_last (tunedProfile : TunedProfile)
    (hd : HasDegradedTrue tunedProfile) (ha : HasAppliedFalse tunedProfile) :
    writeTunedProfile "" tunedProfile =
      expectedTunedText tunedProfile.Name
        (tunedProfile.Status.Conditions.getLast?.getD { Type_ := "", Status := "" }).Reason
        (tunedProfile.Status.Conditions.getLast?.getD { Type_ := "", Status := "" }).Message := by
  have h1 := (tunedFold_isDegraded tunedProfile.Status.Conditions tunedLoopStart).2 (Or.inr hd)
  have h2 := (tunedFold_isApplied tunedProfile.Status.Conditions tunedLoopStart).2 (Or.inr ha)
  have h3 := tunedFold_condition tunedProfile.Status.Conditions tunedLoopStart
  unfold writeTunedProfile
  simp only
  rw [if_pos ⟨h1, h2⟩, h3]
  unfold expectedTunedText
  simp only [tunedLoopStart]
  split_ifs <;> simp

theorem writeTunedProfile_empty (tunedProfile : TunedProfile)
    (h : ¬ (HasDegradedTrue tunedProfile ∧ HasAppliedFalse tunedProfile)) :
    writeTunedProfile "" tunedProfile = "" := by
  have h1 := tunedFold_isDegraded tunedProfile.Status.Conditions tunedLoopStart
  have h2 := tunedFold_isApplied tunedProfile.Status.Conditions tunedLoopStart
  unfold writeTunedProfile
  simp only
  rw [if_neg]
  rintro ⟨hd, ha⟩
  apply h
  constructor
  · rcases h1.1 hd with h | h
    · simp [tunedLoopStart] at h
    · exact h
  · rcases h2.1 ha with h | h
    · simp [tunedLoopStart] at h
    · exact h

theorem foldl_writeTunedProfile_empty (profiles : List TunedProfile)
    (h : ∀ tp ∈ profiles, ¬ (HasDegradedTrue tp ∧ HasAppliedFalse tp)) :
    profiles.foldl writeTunedProfile "" = "" := by
  induction profiles with
  | nil => rfl
  | cons tp rest ih =>
    rw [List.foldl_cons, writeTunedProfile_empty tp (h tp (List.mem_cons_self _ _))]
    exact ih (fun t ht => h t (List.mem_cons_of_mem _ ht))

theorem foldl_removeUnMatched (nodes : List Node) (profiles : List TunedProfile) :
    ∀ acc : List TunedProfile,
      profiles.foldl
        (fun filteredProfiles profile =>
          if nodes.any (fun node => profile.Name = node.Name) then filteredProfiles ++ [profile]
          else filteredProfiles) acc =
      acc ++ profiles.filter (fun profile => nodes.any (fun node => profile.Name = node.Name)) := by
  induction profiles with
  | nil => intro acc; simp
  | cons p rest ih =>
    intro acc
    rw [List.foldl_cons, ih]
    by_cases hp : nodes.any (fun node => decide (p.Name = node.Name)) = true
    · simp [hp, List.filter]
    · simp [hp, List.filter]

/-- The node-matched Tuned profiles are the profiles whose name is the name of a
listed node, in list order. -/
theorem removeUnMatchedTunedProfiles_eq (nodes : List Node) (profiles : List TunedProfile) :
    removeUnMatchedTunedProfiles nodes profiles =
      profiles.filter (fun profile => nodes.any (fun node => profile.Name = node.Name)) := by
  unfold removeUnMatchedTunedProfiles
  rw [foldl_removeUnMatched]
  simp

/-- C14: a node-matched Tuned profile adds text to the aggregated message only
if its conditions contain a Degraded condition with status True and an Applied
condition with status False; without an Applied condition with status False
(in particular with Degraded=True and Applied=True) it adds nothing; and if no
matched profile has both, the result is no signal. -/
theorem getTunedConditionsByProfile_both_required (r : Reconciler)
    (profile : PerformanceProfileInfo) (tunedProfiles : List TunedProfile) (nodes : List Node)
    (htuned : r.ListTunedProfiles = .ok tunedProfiles)
    (hnodes : r.ListNodes profile.Spec.NodeSelector = .ok nodes) :
    (∀ (message : String) (tp : TunedProfile),
      writeTunedProfile message tp = message ++ writeTunedProfile "" tp) ∧
    (∀ tp : TunedProfile, writeTunedProfile "" tp ≠ "" →
      HasDegradedTrue tp ∧ HasAppliedFalse tp) ∧
    (∀ tp : TunedProfile, ¬ HasAppliedFalse tp → writeTunedProfile "" tp = "") ∧
    ((∀ tp ∈ removeUnMatchedTunedProfiles nodes tunedProfiles,
        ¬ (HasDegradedTrue tp ∧ HasAppliedFalse tp)) →
      getTunedConditionsByProfile r profile = .ok none) := by
  refine ⟨writeTunedProfile_append, ?_, ?_, ?_⟩
  · intro tp hne
    by_contra hcon
    exact hne (writeTunedProfile_empty tp hcon)
  · intro tp hna
    exact writeTunedProfile_empty tp (fun h => hna h.2)
  · intro hnone
    unfold getTunedConditionsByProfile
    simp only [htuned, hnodes, bind, Except.bind, foldl_writeTunedProfile_empty _ hnone,
      if_true, pure, Except.pure]

/-- Witness for C14: a matched profile with Degraded=True and Applied=True. -/
theorem getTunedConditionsByProfile_both_required_witness :
    (tunedReconciler [] [appliedTunedProfile]).ListTunedProfiles = .ok [appliedTunedProfile] ∧
    (tunedReconciler [] [appliedTunedProfile]).ListNodes statusProfile.Spec.NodeSelector =
      .ok [node1] ∧
    removeUnMatchedTunedProfiles [node1] [appliedTunedProfile] = [appliedTunedProfile] ∧
    ¬ HasAppliedFalse appliedTunedProfile ∧
    writeTunedProfile "" appliedTunedProfile = "" ∧
    getTunedConditionsByProfile (tunedReconciler [] [appliedTunedProfile]) statusProfile =
      .ok none := by
  have hna : ¬ HasAppliedFalse appliedTunedProfile := by
    rintro ⟨c, hc, hty, hst⟩
    simp only [appliedTunedProfile, List.mem_cons, List.mem_singleton, List.not_mem_nil,
      or_false] at hc
    rcases hc with rfl | rfl
    · simp at hst
    · simp at hty
  have hthm := getTunedConditionsByProfile_both_required (tunedReconciler [] [appliedTunedProfile])
    statusProfile [appliedTunedProfile] [node1] rfl rfl
  refine ⟨rfl, rfl, by decide, hna, hthm.2.2.1 appliedTunedProfile hna, hthm.2.2.2 ?_⟩
  intro tp htp
  have hlist : removeUnMatchedTunedProfiles [node1] [appliedTunedProfile] =
      [appliedTunedProfile] := by decide
  rw [hlist, List.mem_singleton] at htp
  subst htp
  exact fun h => hna h.2

/-- C20 fails on the code: for a matched Tuned profile whose Degraded condition
(status True) is followed by its Applied condition (status False) the text is
built from the Applied condition, the last of the list, not from the Degraded
condition; with the Degraded condition last the text is the expected one. -/
theorem tuned_text_from_last_condition :
    getTunedConditionsByProfile (tunedReconciler [] [degradedFirstTunedProfile])
        statusProfile =
      .ok (some (getDegradedConditions (tunedReconciler [] [degradedFirstTunedProfile])
        "TunedProfileDegraded"
        (expectedTunedText "node1" "Failed" "The Tuned daemon profile not yet applied"))) ∧
    getTunedConditionsByProfile (tunedReconciler [] [degradedFirstTunedProfile])
        statusProfile ≠
      .ok (some (getDegradedConditions (tunedReconciler [] [degradedFirstTunedProfile])
        "TunedProfileDegraded"
        (expectedTunedText "node1" "TunedError"
          "Tuned daemon issued one or more error message(s)"))) ∧
    getTunedConditionsByProfile (tunedReconciler [] [degradedTunedProfile]) statusProfile =
      .ok (some (getDegradedConditions (tunedReconciler [] [degradedTunedProfile])
        "TunedProfileDegraded"
        (expectedTunedText "node1" "TunedError"
          "Tuned daemon issued one or more error message(s)"))) := by
  refine ⟨by decide, by decide, by decide⟩

/-! ### C15: precedence of the three signals -/

/-- The aggregator hands on an error of the MCP signal. -/
theorem aggregateConditions_mcp_error (env : Env) (r : Reconciler)
    (profile : PerformanceProfileInfo) (e : Error)
    (h : getMCPConditionsByProfile env r profile = .error e) :
    aggregateConditions env r profile = .error e := by
  simp [aggregateConditions, h, bind, Except.bind]

/-- C15 (amended): the aggregator returns the MCP signal when it is non-nil, else
the KubeletConfig signal when it is non-nil, else the Tuned signal when it is
non-nil, else the available conditions, never merging. Whenever the pool list
succeeds, the machine-config selector of every deduplicated pool converts and
the text accumulated from the True NodeDegraded or RenderDegraded conditions of
the matching pools is non-empty, the result is exactly the MCP-derived degraded
set (reason "MCPDegraded", that text as message), whatever the KubeletConfig
and the Tuned profiles report. When a selector does not convert the aggregator
returns an error; when the accumulated text is empty (also with a matching
pool whose degraded conditions carry neither reason nor message) the MCP signal
is nil and the next signals decide. -/
theorem aggregateConditions_precedence (env : Env) (r : Reconciler)
    (profile : PerformanceProfileInfo) :
    (∀ cs, getMCPConditionsByProfile env r profile = .ok (some cs) →
      aggregateConditions env r profile = .ok cs) ∧
    (∀ cs, getMCPConditionsByProfile env r profile = .ok none →
      getKubeletConditionsByProfile env r profile = .ok (some cs) →
      aggregateConditions env r profile = .ok cs) ∧
    (∀ cs, getMCPConditionsByProfile env r profile = .ok none →
      getKubeletConditionsByProfile env r profile = .ok none →
      getTunedConditionsByProfile r profile = .ok (some cs) →
      aggregateConditions env r profile = .ok cs) ∧
    (getMCPConditionsByProfile env r profile = .ok none →
      getKubeletConditionsByProfile env r profile = .ok none →
      getTunedConditionsByProfile r profile = .ok none →
      aggregateConditions env r profile = .ok (getAvailableConditions r)) ∧
    (∀ mcps, r.ListMachineConfigPools = .ok mcps →
      (∀ mcp ∈ removeMCPDuplicateEntries mcps,
        ∃ s, r.LabelSelectorAsSelector mcp.Spec.MachineConfigSelector = .ok s) →
      accumulatedMCPMessage r (GetMachineConfigPoolSelector env profile)
        (removeMCPDuplicateEntries mcps) ≠ "" →
      aggregateConditions env r profile =
        .ok (getDegradedConditions r "MCPDegraded"
          (accumulatedMCPMessage r (GetMachineConfigPoolSelector env profile)
            (removeMCPDuplicateEntries mcps))) ∧
      FindStatusCondition (getDegradedConditions r "MCPDegraded"
          (accumulatedMCPMessage r (GetMachineConfigPoolSelector env profile)
            (removeMCPDuplicateEntries mcps))) "Degraded" =
        some { Type_ := "Degraded", Status := "True", Reason := "MCPDegraded",
               Message := accumulatedMCPMessage r (GetMachineConfigPoolSelector env profile)
                 (removeMCPDuplicateEntries mcps),
               LastTransitionTime := r.Now, LastHeartbeatTime := r.Now }) ∧
    (∀ mcps, r.ListMachineConfigPools = .ok mcps →
      (∃ mcp ∈ removeMCPDuplicateEntries mcps, ∃ e,
        r.LabelSelectorAsSelector mcp.Spec.MachineConfigSelector = .error e) →
      ∃ e, aggregateConditions env r profile = .error e) ∧
    (∀ mcps, r.ListMachineConfigPools = .ok mcps →
      (∀ mcp ∈ removeMCPDuplicateEntries mcps,
        ∃ s, r.LabelSelectorAsSelector mcp.Spec.MachineConfigSelector = .ok s) →
      accumulatedMCPMessage r (GetMachineConfigPoolSelector env profile)
        (removeMCPDuplicateEntries mcps) = "" →
      getMCPConditionsByProfile env r profile = .ok none ∧
      (∀ cs, getKubeletConditionsByProfile env r profile = .ok (some cs) →
        aggregateConditions env r profile = .ok cs) ∧
      (∀ cs, getKubeletConditionsByProfile env r profile = .ok none →
        getTunedConditionsByProfile r profile = .ok (some cs) →
        aggregateConditions env r profile = .ok cs)) := by
  have hfirst : ∀ cs, getMCPConditionsByProfile env r profile = .ok (some cs) →
      aggregateConditions env r profile = .ok cs := by
    intro cs h
    simp [aggregateConditions, h, bind, Except.bind, pure, Except.pure]
  have hsecond : ∀ cs, getMCPConditionsByProfile env r profile = .ok none →
      getKubeletConditionsByProfile env r profile = .ok (some cs) →
      aggregateConditions env r profile = .ok cs := by
    intro cs h1 h2
    simp [aggregateConditions, h1, h2, bind, Except.bind, pure, Except.pure]
  have hthird : ∀ cs, getMCPConditionsByProfile env r profile = .ok none →
      getKubeletConditionsByProfile env r profile = .ok none →
      getTunedConditionsByProfile r profile = .ok (some cs) →
      aggregateConditions env r profile = .ok cs := by
    intro cs h1 h2 h3
    simp [aggregateConditions, h1, h2, h3, bind, Except.bind, pure, Except.pure]
  refine ⟨hfirst, hsecond, hthird, ?_, ?_, ?_, ?_⟩
  · intro h1 h2 h3
    simp [aggregateConditions, h1, h2, h3, bind, Except.bind, pure, Except.pure]
  · intro mcps hlist hconv hne
    refine ⟨?_, FindStatusCondition_degraded r _ _⟩
    apply hfirst
    have hfold := foldlM_writeMCP_ok r (GetMachineConfigPoolSelector env profile)
      (removeMCPDuplicateEntries mcps) "" hconv
    rw [String.empty_append] at hfold
    unfold getMCPConditionsByProfile
    simp only [hlist, bind, Except.bind, hfold, hne, if_false, pure, Except.pure,
      conditionReasonMCPDegraded]
  · intro mcps hlist herr
    obtain ⟨e, he⟩ := foldlM_writeMCP_error r (GetMachineConfigPoolSelector env profile)
      (removeMCPDuplicateEntries mcps) "" herr
    refine ⟨e, aggregateConditions_mcp_error env r profile e ?_⟩
    simp only [getMCPConditionsByProfile, hlist, bind, Except.bind, he]
  · intro mcps hlist hconv hempty
    have hfold := foldlM_writeMCP_ok r (GetMachineConfigPoolSelector env profile)
      (removeMCPDuplicateEntries mcps) "" hconv
    rw [String.empty_append] at hfold
    have hmcp : getMCPConditionsByProfile env r profile = .ok none := by
      unfold getMCPConditionsByProfile
      simp only [hlist, bind, Except.bind, hfold, hempty, if_true, pure, Except.pure]
    exact ⟨hmcp, fun cs h => hsecond cs hmcp h, fun cs h2 h3 => hthird cs hmcp h2 h3⟩

/-- Witness for C15: a degraded matching pool together with a degraded Tuned
node. -/
theorem aggregateConditions_precedence_witness :
    (tunedReconciler [degradedPool] [degradedTunedProfile]).ListMachineConfigPools =
      .ok [degradedPool] ∧
    (∀ mcp ∈ removeMCPDuplicateEntries [degradedPool],
      ∃ s, (tunedReconciler [degradedPool] [degradedTunedProfile]).LabelSelectorAsSelector
        mcp.Spec.MachineConfigSelector = .ok s) ∧
    getTunedConditionsByProfile (tunedReconciler [degradedPool] [degradedTunedProfile])
        statusProfile =
      .ok (some (getDegradedConditions (tunedReconciler [degradedPool] [degradedTunedProfile])
        "TunedProfileDegraded"
        (expectedTunedText "node1" "TunedError"
          "Tuned daemon issued one or more error message(s)"))) ∧
    accumulatedMCPMessage (tunedReconciler [degradedPool] [degradedTunedProfile])
        (GetMachineConfigPoolSelector sampleEnv statusProfile)
        (removeMCPDuplicateEntries [degradedPool]) =
      "Machine config pool worker-cnf Degraded Reason: 1 nodes are reporting degraded.\nMachine config pool worker-cnf Degraded Message: Node n1 is reporting: disk full.\n" ∧
    aggregateConditions sampleEnv (tunedReconciler [degradedPool] [degradedTunedProfile])
        statusProfile =
      .ok (getDegradedConditions (tunedReconciler [degradedPool] [degradedTunedProfile])
        "MCPDegraded"
        (accumulatedMCPMessage (tunedReconciler [degradedPool] [degradedTunedProfile])
          (GetMachineConfigPoolSelector sampleEnv statusProfile)
          (removeMCPDuplicateEntries [degradedPool]))) := by
  have hconv : ∀ mcp ∈ removeMCPDuplicateEntries [degradedPool],
      ∃ s, (tunedReconciler [degradedPool] [degradedTunedProfile]).LabelSelectorAsSelector
        mcp.Spec.MachineConfigSelector = .ok s := by
    intro mcp hm
    have hlist : removeMCPDuplicateEntries [degradedPool] = [degradedPool] := by decide
    rw [hlist, List.mem_singleton] at hm
    subst hm
    exact ⟨_, rfl⟩
  exact ⟨rfl, hconv, by decide, by decide,
    ((aggregateConditions_precedence sampleEnv
      (tunedReconciler [degradedPool] [degradedTunedProfile]) statusProfile).2.2.2.2.1
      [degradedPool] rfl hconv (by decide)).1⟩

/-- C15 as stated fails: with a degraded matching pool and a degraded Tuned node
the aggregator does not always return the MCP-derived set. Next to a pool whose
selector does not convert it returns the conversion error; and when the
degraded condition of the matching pool carries neither reason nor message,
the MCP signal is nil and the Tuned-derived set is returned. -/
theorem degraded_pool_and_tuned_not_mcp_set :
    poolMatches (tunedReconciler [degradedPool, brokenSelectorPool] [degradedTunedProfile])
      (GetMachineConfigPoolSelector sampleEnv statusProfile) degradedPool = true ∧
    degradedPool.Status.Conditions.any isDegradedMCPCondition = true ∧
    getTunedConditionsByProfile
        (tunedReconciler [degradedPool, brokenSelectorPool] [degradedTunedProfile])
        statusProfile =
      .ok (some (getDegradedConditions
        (tunedReconciler [degradedPool, brokenSelectorPool] [degradedTunedProfile])
        "TunedProfileDegraded"
        (expectedTunedText "node1" "TunedError"
          "Tuned daemon issued one or more error message(s)"))) ∧
    aggregateConditions sampleEnv
        (tunedReconciler [degradedPool, brokenSelectorPool] [degradedTunedProfile])
        statusProfile = .error (.invalidSelector "Near") ∧
    poolMatches (tunedReconciler [silentDegradedPool] [degradedTunedProfile])
      (GetMachineConfigPoolSelector sampleEnv statusProfile) silentDegradedPool = true ∧
    silentDegradedPool.Status.Conditions.any isDegradedMCPCondition = true ∧
    getMCPConditionsByProfile sampleEnv
        (tunedReconciler [silentDegradedPool] [degradedTunedProfile]) statusProfile =
      .ok none ∧
    aggregateConditions sampleEnv
        (tunedReconciler [silentDegradedPool] [degradedTunedProfile]) statusProfile =
      .ok (getDegradedConditions (tunedReconciler [silentDegradedPool] [degradedTunedProfile])
        "TunedProfileDegraded"
        (expectedTunedText "node1" "TunedError"
          "Tuned daemon issued one or more error message(s)")) := by
  refine ⟨by decide, by decide, by decide, by decide, by decide, by decide, by decide,
    by decide⟩

/-! ### C16: default labels -/

/-- C16: `GetMachineConfigLabel` and `GetMachineConfigPoolSelector` return the
respective field of the spec unchanged when it is set; when it is unset each
returns the single-entry map from `MachineConfigRoleLabelKey` to the role,
where the role is the second part that `SplitLabelKey` gives for the first key
of `Spec.NodeSelector`. -/
theorem GetMachineConfigLabel_default (env : Env) (profile : PerformanceProfileInfo) :
    (∀ labels, profile.Spec.MachineConfigLabel = some labels →
      GetMachineConfigLabel env profile = labels) ∧
    (∀ selector, profile.Spec.MachineConfigPoolSelector = some selector →
      GetMachineConfigPoolSelector env profile = selector) ∧
    (∀ key value domain role err,
      env.GetFirstKeyAndValue profile.Spec.NodeSelector = (key, value) →
      env.SplitLabelKey key = (domain, role, err) →
      (profile.Spec.MachineConfigLabel = none →
        GetMachineConfigLabel env profile = [(env.MachineConfigRoleLabelKey, role)]) ∧
      (profile.Spec.MachineConfigPoolSelector = none →
        GetMachineConfigPoolSelector env profile = [(env.MachineConfigRoleLabelKey, role)])) := by
  refine ⟨?_, ?_, ?_⟩
  · intro labels h
    simp [GetMachineConfigLabel, h]
  · intro selector h
    simp [GetMachineConfigPoolSelector, h]
  · intro key value domain role err hfirst hsplit
    constructor
    · intro h
      simp [GetMachineConfigLabel, h, getDefaultLabel, hfirst, hsplit]
    · intro h
      simp [GetMachineConfigPoolSelector, h, getDefaultLabel, hfirst, hsplit]

/-- Witness for C16: the node selector with the single key "fooDomain/barRole"
gives the role "barRole"; a given label map is returned as it is. -/
theorem GetMachineConfigLabel_default_witness :
    sampleEnv.GetFirstKeyAndValue (some [("fooDomain/barRole", "")]) =
      ("fooDomain/barRole", "") ∧
    sampleEnv.SplitLabelKey "fooDomain/barRole" = ("fooDomain", "barRole", none) ∧
    GetMachineConfigLabel sampleEnv
        { Name := "test", Spec := { NodeSelector := some [("fooDomain/barRole", "")] } } =
      [(sampleEnv.MachineConfigRoleLabelKey, "barRole")] ∧
    GetMachineConfigPoolSelector sampleEnv
        { Name := "test", Spec := { NodeSelector := some [("fooDomain/barRole", "")] } } =
      [(sampleEnv.MachineConfigRoleLabelKey, "barRole")] ∧
    GetMachineConfigPoolSelector sampleEnv statusProfile =
      [("machineconfiguration.openshift.io/role", "worker-cnf")] :=
  ⟨rfl, by decide,
   ((GetMachineConfigLabel_default sampleEnv
      { Name := "test", Spec := { NodeSelector := some [("fooDomain/barRole", "")] } }).2.2
      "fooDomain/barRole" "" "fooDomain" "barRole" none rfl (by decide)).1 rfl,
   ((GetMachineConfigLabel_default sampleEnv
      { Name := "test", Spec := { NodeSelector := some [("fooDomain/barRole", "")] } }).2.2
      "fooDomain/barRole" "" "fooDomain" "barRole" none rfl (by decide)).2 rfl,
   (GetMachineConfigLabel_default sampleEnv statusProfile).2.1 _ rfl⟩

/-! ### C17: the must-gather path -/

/-- With readable matches whose modification times are after the zero time, the
loop of `getMustGatherFullPaths` ends with the match the glob lists last. -/
theorem getMustGatherFullPathsLoop_last (os : OS) (paths : List String) :
    ∀ lastModifiedPath : String,
      (∀ p ∈ paths, ∃ t, os.Stat p = .ok t ∧ 0 < t) →
      getMustGatherFullPathsLoop os 0 paths lastModifiedPath =
        .ok (paths.getLast?.getD lastModifiedPath) := by
  induction paths with
  | nil => intro last _; rfl
  | cons p rest ih =>
    intro last h
    obtain ⟨t, ht, hpos⟩ := h p (List.mem_cons_self _ _)
    unfold getMustGatherFullPathsLoop
    simp only [ht, gt_iff_lt, hpos, if_true]
    rw [ih p (fun q hq => h q (List.mem_cons_of_mem _ hq)), List.getLast?_cons]
    rfl

/-- C17 fails on the code: of two matches modified at times 200 and 100,
listed in this order, `getMustGatherFullPaths` returns the second, which was
modified earlier; with the same matches listed in the other order it returns
the other path. -/
theorem mustGather_returns_last_listed :
    (sampleOS.Glob "must-gather/*performance-addon-operator-must-gather*/cluster-scoped-resources").1 =
      ["must-gather/a-performance-addon-operator-must-gather-1/cluster-scoped-resources",
       "must-gather/b-performance-addon-operator-must-gather-2/cluster-scoped-resources"] ∧
    sampleOS.Stat
        "must-gather/a-performance-addon-operator-must-gather-1/cluster-scoped-resources" =
      .ok 200 ∧
    sampleOS.Stat
        "must-gather/b-performance-addon-operator-must-gather-2/cluster-scoped-resources" =
      .ok 100 ∧
    getMustGatherFullPaths sampleOS "must-gather" "cluster-scoped-resources" =
      ("must-gather/b-performance-addon-operator-must-gather-2/cluster-scoped-resources",
       none) ∧
    getMustGatherFullPaths sampleOSReversed "must-gather" "cluster-scoped-resources" =
      ("must-gather/a-performance-addon-operator-must-gather-1/cluster-scoped-resources",
       none) := by
  refine ⟨rfl, by decide, by decide, by decide, by decide⟩

/-! ### C18: the node selector of a pool -/

/-- With at least one match expression the single term of
`getNodeSelectorFromLabelSelector` holds only the requirement of the last
match expression. -/
theorem getNodeSelectorFromLabelSelector_last (labelSelector : LabelSelector)
    (init : List LabelSelectorRequirement) (last : LabelSelectorRequirement)
    (h : labelSelector.MatchExpressions = init ++ [last]) :
    getNodeSelectorFromLabelSelector (some labelSelector) =
      .ok { NodeSelectorTerms :=
              [{ MatchExpressions :=
                   [{ Key := last.Key, Operator := last.Operator, Values := last.Values }],
                 MatchFields := [] }] } := by
  unfold getNodeSelectorFromLabelSelector
  simp [h, List.foldl_append]

/-- C18 fails on the code: for a selector with one label and one expression the
returned term holds the requirement of the expression only; the In-requirement
of the label is missing. -/
theorem nodeSelector_drops_match_labels :
    sampleNodeSelector =
      { MatchLabels := [("node-role.kubernetes.io/worker-cnf", "")],
        MatchExpressions := [{ Key := "zone", Operator := "In", Values := ["a", "b"] }] } ∧
    getNodeSelectorFromLabelSelector (some sampleNodeSelector) =
      .ok { NodeSelectorTerms :=
              [{ MatchExpressions := [{ Key := "zone", Operator := "In", Values := ["a", "b"] }],
                 MatchFields := [] }] } ∧
    getNodeSelectorFromLabelSelector (some { sampleNodeSelector with MatchExpressions := [] }) =
      .ok { NodeSelectorTerms :=
              [{ MatchExpressions :=
                   [{ Key := "node-role.kubernetes.io/worker-cnf", Operator := "In",
                      Values := [""] }],
                 MatchFields := [] }] } := by
  refine ⟨rfl, by decide, by decide⟩

/-! ### C19: a profile without a CPU section -/

/-- Without a CPU section `addCrioConfigSnippet` reads a field of the nil
pointer and `getIgnitionConfig` returns no bundle. -/
theorem getIgnitionConfig_no_cpu (env : Env) (assetsDir : String)
    (profile : PerformanceProfileInfo) (hcpu : profile.Spec.CPU = none) :
    addCrioConfigSnippet env profile (env.Join [assetsDir, "configs", crioRuntimesConfig]) =
      .error .nilPointerDereference ∧
    ∀ cfg, getIgnitionConfig env assetsDir profile ≠ .ok cfg := by
  have hsnippet : ∀ src, addCrioConfigSnippet env profile src =
      .error .nilPointerDereference := by
    intro src
    simp [addCrioConfigSnippet, hcpu, bind, Except.bind, throw, throwThe, MonadExceptOf.throw]
  refine ⟨hsnippet _, ?_⟩
  intro cfg h
  unfold getIgnitionConfig at h
  simp only [bind_eq_ok, List.foldlM_cons, List.foldlM_nil] at h
  obtain ⟨c3, -, snippet, hs, -⟩ := h
  rw [hsnippet] at hs
  cases hs

/-- C19 fails on the code: for a profile without a CPU section and readable
assets `getIgnitionConfig` panics on the nil dereference in
`addCrioConfigSnippet`, although the hook snippet renders with mask "0" for the
same profile. -/
theorem noCPU_profile_panics :
    noCPUProfile.Spec.CPU = none ∧
    getIgnitionConfig sampleEnv "/assets" noCPUProfile = .error .nilPointerDereference ∧
    addCrioConfigSnippet sampleEnv noCPUProfile "/assets/configs/99-runtimes.conf" =
      .error .nilPointerDereference ∧
    GetOCIHooksConfigContent sampleEnv "/assets/configs/99-low-latency-hooks.json" noCPUProfile =
      sampleEnv.Execute "</assets/configs/99-low-latency-hooks.json>" [("RPSMask", "0")] := by
  refine ⟨rfl, by decide, by decide, by decide⟩

end PAO
